import Mathlib

/-!
Verification of the dotnet-nrbf-deserializer codebase (a Python codec for the
.NET Remoting Binary Format).  The Python sources under `src/dotnet` are
shallowly embedded: byte streams become `List Nat` (each entry one byte),
Python `int` becomes `Int` (or `Nat` where the source value is provably
non-negative), raised exceptions become `Except PyErr`, and Python's
two's-complement bitwise operators on unbounded integers are modelled
explicitly.  Each embedded definition carries a comment naming the source
function it translates.
-/

namespace DotNetNrbf

/-- The kinds of runtime errors the Python sources can raise.  Messages are
dropped; only the exception class matters for the properties proved here. -/
inductive PyErr where
  | valueError
  | typeError
  | keyError
  | ioError
  | indexError
  | attributeError
  | nameError
  | notImplementedError
  | invalidReferenceError
  | invalidExtraInfoValue
  | unicodeDecodeError
  | modelGap
  deriving DecidableEq, Repr

instance {ε α : Type} [DecidableEq ε] [DecidableEq α] : DecidableEq (Except ε α)
  | .error e, .error f =>
    if h : e = f then .isTrue (by rw [h])
    else .isFalse (by intro hh; cases hh; exact h rfl)
  | .error _, .ok _ => .isFalse (by intro h; cases h)
  | .ok _, .error _ => .isFalse (by intro h; cases h)
  | .ok a, .ok b =>
    if h : a = b then .isTrue (by rw [h])
    else .isFalse (by intro hh; cases hh; exact h rfl)

/-! ## Arithmetic helper lemmas for bitwise reasoning

These restate `&&&`, `|||`, `>>>`, `<<<` on `Nat` in terms of `/`, `%`, `+`
so that `omega` can finish the arithmetic. -/

theorem nat_and_mask_eq_mod (x k : Nat) : x &&& (2 ^ k - 1) = x % 2 ^ k := by
  apply Nat.eq_of_testBit_eq
  intro i
  rw [Nat.testBit_land, Nat.testBit_two_pow_sub_one, Nat.testBit_mod_two_pow]
  cases h : Nat.testBit x i <;> simp [h]

theorem nat_lor_two_pow_eq_add {a : Nat} (k : Nat) (h : a < 2 ^ k) :
    a ||| 2 ^ k = a + 2 ^ k := by
  apply Nat.eq_of_testBit_eq
  intro i
  have hrw : a + 2 ^ k = 2 ^ k * 1 + a := by ring
  rw [Nat.testBit_lor, hrw, Nat.testBit_mul_pow_two_add 1 h i]
  by_cases hik : i < k
  · have : Nat.testBit (2 ^ k) i = false := by
      simp [Nat.testBit_two_pow, Nat.ne_of_gt hik]
    simp [this, hik]
  · have hax : Nat.testBit a i = false :=
      Nat.testBit_lt_two_pow (lt_of_lt_of_le h (Nat.pow_le_pow_right (by norm_num) (Nat.le_of_not_lt hik)))
    by_cases hie : i = k
    · subst hie
      simp [Nat.testBit_two_pow, hax]
    · have : Nat.testBit (2 ^ k) i = false := by
        simp [Nat.testBit_two_pow, Ne.symm hie]
      have hone : Nat.testBit 1 (i - k) = false := by
        have h1 : (1 : Nat) = 2 ^ 0 := rfl
        rw [h1, Nat.testBit_two_pow]
        simp only [decide_eq_false_iff_not]
        omega
      simp [this, hax, hik, hone]

theorem nat_and_two_pow_eq (x k : Nat) :
    x &&& 2 ^ k = if x / 2 ^ k % 2 = 1 then 2 ^ k else 0 := by
  rw [Nat.and_two_pow]
  rcases h : Nat.testBit x k with _ | _
  · rw [Nat.testBit_to_div_mod] at h
    simp at h
    simp [h]
  · rw [Nat.testBit_to_div_mod] at h
    simp at h
    simp [h]

/-! ## `dotnet/utils.py` — the 1–5 byte variable-width length codec -/

/-- From `utils.encode_multi_byte_int`: encode an unsigned integer into up to
five 7-bit-payload bytes, rejecting values outside `[0, 2^31 - 1]`. -/
def encode_multi_byte_int (value : Int) : Except PyErr (List Nat) :=
  if value > 2147483647 ∨ value < 0 then .error .valueError
  else
    let v := value.toNat
    let b5 := (v >>> 28) &&& 0x03
    let b4 := ((v >>> 21) &&& 0x7F) ||| (if b5 > 0 then 0x80 else 0)
    let b3 := ((v >>> 14) &&& 0x7F) ||| (if b4 > 0 then 0x80 else 0)
    let b2 := ((v >>> 7) &&& 0x7F) ||| (if b3 > 0 then 0x80 else 0)
    let b1 := (v &&& 0x7F) ||| (if b2 > 0 then 0x80 else 0)
    if b5 > 0 then .ok [b1, b2, b3, b4, b5]
    else if b4 > 0 then .ok [b1, b2, b3, b4]
    else if b3 > 0 then .ok [b1, b2, b3]
    else if b2 > 0 then .ok [b1, b2]
    else .ok [b1]

/-- From `utils.decode_multi_byte_int`: decode a byte string into
`(bytes_consumed, value)`.  The range check on the decoded value precedes the
continuation-bit check on the fifth byte, exactly as in the source. -/
def decode_multi_byte_int (byte_str : List Nat) : Except PyErr (Nat × Nat) :=
  match byte_str with
  | [] => .error .valueError
  | b0 :: rest0 =>
    let v0 := b0 &&& 0x7F
    if b0 &&& 0x80 = 0 then .ok (1, v0) else
    match rest0 with
    | [] => .error .valueError
    | b1 :: rest1 =>
      let v1 := v0 + ((b1 &&& 0x7F) <<< 7)
      if b1 &&& 0x80 = 0 then .ok (2, v1) else
      match rest1 with
      | [] => .error .valueError
      | b2 :: rest2 =>
        let v2 := v1 + ((b2 &&& 0x7F) <<< 14)
        if b2 &&& 0x80 = 0 then .ok (3, v2) else
        match rest2 with
        | [] => .error .valueError
        | b3 :: rest3 =>
          let v3 := v2 + ((b3 &&& 0x7F) <<< 21)
          if b3 &&& 0x80 = 0 then .ok (4, v3) else
          match rest3 with
          | [] => .error .valueError
          | b4 :: _ =>
            let v4 := v3 + ((b4 &&& 0x7F) <<< 28)
            if v4 > 2147483647 then .error .valueError
            else if b4 &&& 0x80 = 0 then .ok (5, v4)
            else .error .valueError

/-- The minimal number of 7-bit-continuation bytes needed for `n`: the least
`k ∈ [1,5]` with `n < 2^(7k)`. -/
def mbi_min_len (n : Nat) : Nat :=
  if n < 2 ^ 7 then 1
  else if n < 2 ^ 14 then 2
  else if n < 2 ^ 21 then 3
  else if n < 2 ^ 28 then 4
  else 5

theorem and127 (x : Nat) : x &&& 127 = x % 128 := by
  have h := nat_and_mask_eq_mod x 7
  norm_num at h
  exact h

theorem and3 (x : Nat) : x &&& 3 = x % 4 := by
  have h := nat_and_mask_eq_mod x 2
  norm_num at h
  exact h

theorem or128 {a : Nat} (h : a < 128) : a ||| 128 = a + 128 := by
  have h2 := nat_lor_two_pow_eq_add 7 (a := a) (by norm_num; omega)
  norm_num at h2
  exact h2

theorem and128 (x : Nat) : x &&& 128 = if x / 128 % 2 = 1 then 128 else 0 := by
  have h := nat_and_two_pow_eq x 7
  norm_num at h
  exact h

theorem mbi_case1 (n : Nat) (h : n < 128) :
    encode_multi_byte_int (n : Int) = .ok [n] := by
  unfold encode_multi_byte_int
  have h1 : ¬((n:Int) > 2147483647 ∨ (n:Int) < 0) := by omega
  rw [if_neg h1]
  simp only [Int.toNat_natCast, Nat.shiftRight_eq_div_pow, and127, and3]
  have e28 : n / 2 ^ 28 = 0 := Nat.div_eq_of_lt (by omega)
  have e21 : n / 2 ^ 21 = 0 := Nat.div_eq_of_lt (by omega)
  have e14 : n / 2 ^ 14 = 0 := Nat.div_eq_of_lt (by omega)
  have e7 : n / 2 ^ 7 = 0 := Nat.div_eq_of_lt (by omega)
  rw [e28, e21, e14, e7]
  norm_num [Nat.mod_eq_of_lt h]

theorem mbi_dcase1 (n : Nat) (h : n < 128) :
    decode_multi_byte_int [n] = .ok (1, n) := by
  unfold decode_multi_byte_int
  dsimp only
  rw [and128, and127]
  have : n / 128 = 0 := Nat.div_eq_of_lt h
  simp [this, Nat.mod_eq_of_lt h]

theorem mbi_case2 (n : Nat) (h0 : 128 ≤ n) (h : n < 2 ^ 14) :
    encode_multi_byte_int (n : Int) = .ok [n % 128 + 128, n / 2 ^ 7] := by
  unfold encode_multi_byte_int
  have h1 : ¬((n:Int) > 2147483647 ∨ (n:Int) < 0) := by omega
  rw [if_neg h1]
  simp only [Int.toNat_natCast, Nat.shiftRight_eq_div_pow, and127, and3]
  have e28 : n / 2 ^ 28 = 0 := Nat.div_eq_of_lt (by omega)
  have e21 : n / 2 ^ 21 = 0 := Nat.div_eq_of_lt (by omega)
  have e14 : n / 2 ^ 14 = 0 := Nat.div_eq_of_lt (by omega)
  have e7a : n / 2 ^ 7 % 128 = n / 2 ^ 7 := Nat.mod_eq_of_lt (by omega)
  have e7b : 0 < n / 2 ^ 7 := Nat.div_pos (by omega) (by norm_num)
  rw [e28, e21, e14, e7a]
  have hb1 : n % 128 ||| 128 = n % 128 + 128 := or128 (Nat.mod_lt _ (by norm_num))
  simp only [Nat.zero_mod, Nat.zero_div, Nat.zero_or, Nat.or_zero, lt_irrefl, if_false,
    gt_iff_lt, e7b, if_true, hb1]

theorem mbi_dcase2 (n : Nat) (h0 : 128 ≤ n) (h : n < 2 ^ 14) :
    decode_multi_byte_int [n % 128 + 128, n / 2 ^ 7] = .ok (2, n) := by
  unfold decode_multi_byte_int
  dsimp only
  rw [and128, and127, and128, and127]
  have c0 : (n % 128 + 128) / 128 % 2 = 1 := by omega
  have c1 : n / 2 ^ 7 / 128 % 2 = 0 := by omega
  rw [c0, c1]
  simp only [if_pos rfl, Nat.shiftLeft_eq]
  norm_num
  omega

theorem mbi_case3 (n : Nat) (h0 : 2 ^ 14 ≤ n) (h : n < 2 ^ 21) :
    encode_multi_byte_int (n : Int) =
      .ok [n % 128 + 128, n / 2 ^ 7 % 128 + 128, n / 2 ^ 14] := by
  unfold encode_multi_byte_int
  have h1 : ¬((n:Int) > 2147483647 ∨ (n:Int) < 0) := by omega
  rw [if_neg h1]
  simp only [Int.toNat_natCast, Nat.shiftRight_eq_div_pow, and127, and3]
  have e28 : n / 2 ^ 28 = 0 := Nat.div_eq_of_lt (by omega)
  have e21 : n / 2 ^ 21 = 0 := Nat.div_eq_of_lt (by omega)
  have e14a : n / 2 ^ 14 % 128 = n / 2 ^ 14 := Nat.mod_eq_of_lt (by omega)
  have e14b : 0 < n / 2 ^ 14 := Nat.div_pos (by omega) (by norm_num)
  rw [e28, e21, e14a]
  have hb2 : n / 2 ^ 7 % 128 ||| 128 = n / 2 ^ 7 % 128 + 128 :=
    or128 (Nat.mod_lt _ (by norm_num))
  have hb1 : n % 128 ||| 128 = n % 128 + 128 := or128 (Nat.mod_lt _ (by norm_num))
  have hp2 : 0 < n / 2 ^ 7 % 128 + 128 := by omega
  simp only [Nat.zero_mod, Nat.zero_div, Nat.zero_or, Nat.or_zero, lt_irrefl, if_false,
    gt_iff_lt, e14b, if_true, hb2, hp2, hb1]

theorem mbi_dcase3 (n : Nat) (h0 : 2 ^ 14 ≤ n) (h : n < 2 ^ 21) :
    decode_multi_byte_int [n % 128 + 128, n / 2 ^ 7 % 128 + 128, n / 2 ^ 14] =
      .ok (3, n) := by
  unfold decode_multi_byte_int
  dsimp only
  simp only [and128, and127, Nat.shiftLeft_eq]
  have c0 : (n % 128 + 128) / 128 % 2 = 1 := by omega
  have c1 : (n / 2 ^ 7 % 128 + 128) / 128 % 2 = 1 := by omega
  have c2 : n / 2 ^ 14 / 128 % 2 = 0 := by omega
  rw [c0, c1, c2]
  norm_num
  omega

theorem mbi_case4 (n : Nat) (h0 : 2 ^ 21 ≤ n) (h : n < 2 ^ 28) :
    encode_multi_byte_int (n : Int) =
      .ok [n % 128 + 128, n / 2 ^ 7 % 128 + 128, n / 2 ^ 14 % 128 + 128, n / 2 ^ 21] := by
  unfold encode_multi_byte_int
  have h1 : ¬((n:Int) > 2147483647 ∨ (n:Int) < 0) := by omega
  rw [if_neg h1]
  simp only [Int.toNat_natCast, Nat.shiftRight_eq_div_pow, and127, and3]
  have e28 : n / 2 ^ 28 = 0 := Nat.div_eq_of_lt (by omega)
  have e21a : n / 2 ^ 21 % 128 = n / 2 ^ 21 := Nat.mod_eq_of_lt (by omega)
  have e21b : 0 < n / 2 ^ 21 := Nat.div_pos (by omega) (by norm_num)
  rw [e28, e21a]
  have hb3 : n / 2 ^ 14 % 128 ||| 128 = n / 2 ^ 14 % 128 + 128 :=
    or128 (Nat.mod_lt _ (by norm_num))
  have hb2 : n / 2 ^ 7 % 128 ||| 128 = n / 2 ^ 7 % 128 + 128 :=
    or128 (Nat.mod_lt _ (by norm_num))
  have hb1 : n % 128 ||| 128 = n % 128 + 128 := or128 (Nat.mod_lt _ (by norm_num))
  have hp3 : 0 < n / 2 ^ 14 % 128 + 128 := by omega
  have hp2 : 0 < n / 2 ^ 7 % 128 + 128 := by omega
  simp only [Nat.zero_mod, Nat.zero_div, Nat.zero_or, Nat.or_zero, lt_irrefl, if_false,
    gt_iff_lt, e21b, if_true, hb3, hp3, hb2, hp2, hb1]

theorem mbi_dcase4 (n : Nat) (h0 : 2 ^ 21 ≤ n) (h : n < 2 ^ 28) :
    decode_multi_byte_int
        [n % 128 + 128, n / 2 ^ 7 % 128 + 128, n / 2 ^ 14 % 128 + 128, n / 2 ^ 21] =
      .ok (4, n) := by
  unfold decode_multi_byte_int
  dsimp only
  simp only [and128, and127, Nat.shiftLeft_eq]
  have c0 : (n % 128 + 128) / 128 % 2 = 1 := by omega
  have c1 : (n / 2 ^ 7 % 128 + 128) / 128 % 2 = 1 := by omega
  have c2 : (n / 2 ^ 14 % 128 + 128) / 128 % 2 = 1 := by omega
  have c3 : n / 2 ^ 21 / 128 % 2 = 0 := by omega
  rw [c0, c1, c2, c3]
  norm_num
  omega

theorem mbi_case5 (n : Nat) (h0 : 2 ^ 28 ≤ n) (h : n < 2 ^ 30) :
    encode_multi_byte_int (n : Int) =
      .ok [n % 128 + 128, n / 2 ^ 7 % 128 + 128, n / 2 ^ 14 % 128 + 128,
           n / 2 ^ 21 % 128 + 128, n / 2 ^ 28] := by
  unfold encode_multi_byte_int
  have h1 : ¬((n:Int) > 2147483647 ∨ (n:Int) < 0) := by omega
  rw [if_neg h1]
  simp only [Int.toNat_natCast, Nat.shiftRight_eq_div_pow, and127, and3]
  have e28a : n / 2 ^ 28 % 4 = n / 2 ^ 28 := Nat.mod_eq_of_lt (by omega)
  have e28b : 0 < n / 2 ^ 28 := Nat.div_pos (by omega) (by norm_num)
  rw [e28a]
  have hb4 : n / 2 ^ 21 % 128 ||| 128 = n / 2 ^ 21 % 128 + 128 :=
    or128 (Nat.mod_lt _ (by norm_num))
  have hb3 : n / 2 ^ 14 % 128 ||| 128 = n / 2 ^ 14 % 128 + 128 :=
    or128 (Nat.mod_lt _ (by norm_num))
  have hb2 : n / 2 ^ 7 % 128 ||| 128 = n / 2 ^ 7 % 128 + 128 :=
    or128 (Nat.mod_lt _ (by norm_num))
  have hb1 : n % 128 ||| 128 = n % 128 + 128 := or128 (Nat.mod_lt _ (by norm_num))
  have hp4 : 0 < n / 2 ^ 21 % 128 + 128 := by omega
  have hp3 : 0 < n / 2 ^ 14 % 128 + 128 := by omega
  have hp2 : 0 < n / 2 ^ 7 % 128 + 128 := by omega
  simp only [gt_iff_lt, e28b, if_true, hb4, hp4, hb3, hp3, hb2, hp2, hb1]

theorem mbi_dcase5 (n : Nat) (h0 : 2 ^ 28 ≤ n) (h : n < 2 ^ 30) :
    decode_multi_byte_int
        [n % 128 + 128, n / 2 ^ 7 % 128 + 128, n / 2 ^ 14 % 128 + 128,
         n / 2 ^ 21 % 128 + 128, n / 2 ^ 28] =
      .ok (5, n) := by
  unfold decode_multi_byte_int
  dsimp only
  simp only [and128, and127, Nat.shiftLeft_eq]
  have c0 : (n % 128 + 128) / 128 % 2 = 1 := by omega
  have c1 : (n / 2 ^ 7 % 128 + 128) / 128 % 2 = 1 := by omega
  have c2 : (n / 2 ^ 14 % 128 + 128) / 128 % 2 = 1 := by omega
  have c3 : (n / 2 ^ 21 % 128 + 128) / 128 % 2 = 1 := by omega
  have c4 : n / 2 ^ 28 / 128 % 2 = 0 := by omega
  rw [c0, c1, c2, c3, c4]
  have d1 : n / 2 ^ 7 / 128 = n / 2 ^ 14 := by
    rw [Nat.div_div_eq_div_mul]
    norm_num
  have d2 : n / 2 ^ 14 / 128 = n / 2 ^ 21 := by
    rw [Nat.div_div_eq_div_mul]
    norm_num
  have d3 : n / 2 ^ 21 / 128 = n / 2 ^ 28 := by
    rw [Nat.div_div_eq_div_mul]
    norm_num
  norm_num
  have hle : ¬(2147483647 <
      n % 128 + n / 128 % 128 * 128 + n / 16384 % 128 * 16384 + n / 2097152 % 128 * 2097152 +
        n / 268435456 % 128 * 268435456) := by
    omega
  rw [if_neg hle]
  simp only [Except.ok.injEq, Prod.mk.injEq, true_and]
  omega

theorem mbi_decode_bad5 (b0 b1 b2 b3 b4 : Nat)
    (hb0 : 128 ≤ b0) (hb0u : b0 < 256) (hb1 : 128 ≤ b1) (hb1u : b1 < 256)
    (hb2 : 128 ≤ b2) (hb2u : b2 < 256) (hb3 : 128 ≤ b3) (hb3u : b3 < 256)
    (hb4 : 8 ≤ b4) (hb4u : b4 < 256) :
    decode_multi_byte_int [b0, b1, b2, b3, b4] = .error .valueError := by
  unfold decode_multi_byte_int
  dsimp only
  simp only [and128, and127, Nat.shiftLeft_eq]
  have c0 : b0 / 128 % 2 = 1 := by omega
  have c1 : b1 / 128 % 2 = 1 := by omega
  have c2 : b2 / 128 % 2 = 1 := by omega
  have c3 : b3 / 128 % 2 = 1 := by omega
  rw [c0, c1, c2, c3]
  norm_num
  intro hle hc
  exfalso
  omega

theorem mbi_min_len_2 (n : Nat) (h0 : 128 ≤ n) (h : n < 2 ^ 14) : mbi_min_len n = 2 := by
  unfold mbi_min_len
  rw [if_neg (by omega), if_pos (by omega)]

theorem mbi_min_len_3 (n : Nat) (h0 : 2 ^ 14 ≤ n) (h : n < 2 ^ 21) : mbi_min_len n = 3 := by
  unfold mbi_min_len
  rw [if_neg (by omega), if_neg (by omega), if_pos (by omega)]

theorem mbi_min_len_4 (n : Nat) (h0 : 2 ^ 21 ≤ n) (h : n < 2 ^ 28) : mbi_min_len n = 4 := by
  unfold mbi_min_len
  rw [if_neg (by omega), if_neg (by omega), if_neg (by omega), if_pos (by omega)]

theorem mbi_min_len_5 (n : Nat) (h0 : 2 ^ 28 ≤ n) : mbi_min_len n = 5 := by
  unfold mbi_min_len
  rw [if_neg (by omega), if_neg (by omega), if_neg (by omega), if_neg (by omega)]

/-- C3: the claimed round-trip `decode (encode n) = (k, n)` for all
`n ∈ [0, 2^31 - 1]` fails in the code: `encode_multi_byte_int` masks the
fifth payload byte with `0x03`, keeping only bits 28–29 of the value, so
bit 30 is silently dropped — `encode(2^30)` yields the single byte `0x00`,
which decodes to `(1, 0)`.  The round-trip does hold for every
`n < 2^30` with the minimal encoding length; integers outside
`[0, 2^31 - 1]` are rejected; and a five-byte sequence whose fifth byte has
any of its top five bits set fails to decode with `ValueError`. -/
theorem c3_multi_byte_int_roundtrip_bug :
    (encode_multi_byte_int ((2 : Int) ^ 30) = .ok [0]
      ∧ decode_multi_byte_int [0] = .ok (1, 0))
    ∧ (∀ n : Nat, n < 2 ^ 30 →
        ∃ bs, encode_multi_byte_int (n : Int) = .ok bs
          ∧ decode_multi_byte_int bs = .ok (mbi_min_len n, n))
    ∧ (∀ m : Int, m < 0 ∨ 2147483647 < m → encode_multi_byte_int m = .error .valueError)
    ∧ (∀ b0 b1 b2 b3 b4 : Nat, 128 ≤ b0 → b0 < 256 → 128 ≤ b1 → b1 < 256 →
        128 ≤ b2 → b2 < 256 → 128 ≤ b3 → b3 < 256 → 8 ≤ b4 → b4 < 256 →
        decode_multi_byte_int [b0, b1, b2, b3, b4] = .error .valueError) := by
  refine ⟨⟨rfl, rfl⟩, ?_, ?_, ?_⟩
  · intro n h
    rcases Nat.lt_or_ge n 128 with h1 | h1
    · exact ⟨[n], mbi_case1 n h1, by rw [mbi_dcase1 n h1]; rw [show mbi_min_len n = 1 by unfold mbi_min_len; rw [if_pos (by omega)]]⟩
    rcases Nat.lt_or_ge n (2 ^ 14) with h2 | h2
    · exact ⟨_, mbi_case2 n h1 h2, by rw [mbi_dcase2 n h1 h2, mbi_min_len_2 n h1 h2]⟩
    rcases Nat.lt_or_ge n (2 ^ 21) with h3 | h3
    · exact ⟨_, mbi_case3 n h2 h3, by rw [mbi_dcase3 n h2 h3, mbi_min_len_3 n h2 h3]⟩
    rcases Nat.lt_or_ge n (2 ^ 28) with h4 | h4
    · exact ⟨_, mbi_case4 n h3 h4, by rw [mbi_dcase4 n h3 h4, mbi_min_len_4 n h3 h4]⟩
    · exact ⟨_, mbi_case5 n h4 h, by rw [mbi_dcase5 n h4 h, mbi_min_len_5 n h4]⟩
  · intro m hm
    unfold encode_multi_byte_int
    rw [if_pos (by omega)]
  · intro b0 b1 b2 b3 b4 hb0 hb0u hb1 hb1u hb2 hb2u hb3 hb3u hb4 hb4u
    exact mbi_decode_bad5 b0 b1 b2 b3 b4 hb0 hb0u hb1 hb1u hb2 hb2u hb3 hb3u hb4 hb4u

/-- Witness for C3's theorem at concrete inputs: the test vector 536778039
round-trips in five bytes, `-1` is rejected, and the all-continuation
five-byte string is malformed. -/
theorem c3_multi_byte_int_roundtrip_bug_witness :
    (∃ bs, encode_multi_byte_int ((536778039 : Nat) : Int) = .ok bs
      ∧ decode_multi_byte_int bs = .ok (mbi_min_len 536778039, 536778039))
    ∧ encode_multi_byte_int (-1) = .error .valueError
    ∧ decode_multi_byte_int [128, 128, 128, 128, 128] = .error .valueError := by
  refine ⟨?_, ?_, ?_⟩
  · exact c3_multi_byte_int_roundtrip_bug.2.1 536778039 (by norm_num)
  · exact c3_multi_byte_int_roundtrip_bug.2.2.1 (-1) (by norm_num)
  · exact c3_multi_byte_int_roundtrip_bug.2.2.2 128 128 128 128 128 (by norm_num)
      (by norm_num) (by norm_num) (by norm_num) (by norm_num) (by norm_num)
      (by norm_num) (by norm_num) (by norm_num) (by norm_num)

/-! ## `dotnet/enum.py` — wire-format enumerations

`src/dotnet/enum.py` is not present in the source tree, but its enumerations
are fixed by the wire format, by the earlier-revision copy `src/nrbf/enum.py`,
and by every use site in `src/dotnet`; the values below follow those. -/

/-- `RecordType`: the single-byte record discriminants. -/
inductive RecordType where
  | SerializedStreamHeader
  | ClassWithId
  | SystemClassWithMembers
  | ClassWithMembers
  | SystemClassWithMembersAndTypes
  | ClassWithMembersAndTypes
  | BinaryObjectString
  | BinaryArray
  | MemberPrimitiveTyped
  | MemberReference
  | ObjectNull
  | MessageEnd
  | BinaryLibrary
  | ObjectNullMultiple256
  | ObjectNullMultiple
  | ArraySinglePrimitive
  | ArraySingleObject
  | ArraySingleString
  | MethodCall
  | MethodReturn
  deriving DecidableEq, Repr

/-- Python `RecordType(byte)`: raises `ValueError` on 19–21 and on
anything above 22. -/
def RecordType.ofByte (b : Nat) : Except PyErr RecordType :=
  match b with
  | 0 => .ok .SerializedStreamHeader
  | 1 => .ok .ClassWithId
  | 2 => .ok .SystemClassWithMembers
  | 3 => .ok .ClassWithMembers
  | 4 => .ok .SystemClassWithMembersAndTypes
  | 5 => .ok .ClassWithMembersAndTypes
  | 6 => .ok .BinaryObjectString
  | 7 => .ok .BinaryArray
  | 8 => .ok .MemberPrimitiveTyped
  | 9 => .ok .MemberReference
  | 10 => .ok .ObjectNull
  | 11 => .ok .MessageEnd
  | 12 => .ok .BinaryLibrary
  | 13 => .ok .ObjectNullMultiple256
  | 14 => .ok .ObjectNullMultiple
  | 15 => .ok .ArraySinglePrimitive
  | 16 => .ok .ArraySingleObject
  | 17 => .ok .ArraySingleString
  | 18 => .ok .MethodCall
  | 22 => .ok .MethodReturn
  | _ => .error .valueError

/-- `BinaryType`: the per-member wire-shape discriminants, values 0–7. -/
inductive BinaryType where
  | Primitive
  | String
  | Object
  | SystemClass
  | Class
  | ObjectArray
  | StringArray
  | PrimitiveArray
  deriving DecidableEq, Repr

/-- Python `BinaryType(byte)`. -/
def BinaryType.ofByte (b : Nat) : Except PyErr BinaryType :=
  match b with
  | 0 => .ok .Primitive
  | 1 => .ok .String
  | 2 => .ok .Object
  | 3 => .ok .SystemClass
  | 4 => .ok .Class
  | 5 => .ok .ObjectArray
  | 6 => .ok .StringArray
  | 7 => .ok .PrimitiveArray
  | _ => .error .valueError

/-- `PrimitiveType`: value kinds, with the enumeration values of the format
(4 is reserved). -/
inductive PrimitiveType where
  | Boolean
  | Byte
  | Char
  | Decimal
  | Double
  | Int16
  | Int32
  | Int64
  | SByte
  | Single
  | TimeSpan
  | DateTime
  | UInt16
  | UInt32
  | UInt64
  | Null
  | String
  deriving DecidableEq, Repr

/-- Python `PrimitiveType(byte)`. -/
def PrimitiveType.ofByte (b : Nat) : Except PyErr PrimitiveType :=
  match b with
  | 1 => .ok .Boolean
  | 2 => .ok .Byte
  | 3 => .ok .Char
  | 5 => .ok .Decimal
  | 6 => .ok .Double
  | 7 => .ok .Int16
  | 8 => .ok .Int32
  | 9 => .ok .Int64
  | 10 => .ok .SByte
  | 11 => .ok .Single
  | 12 => .ok .TimeSpan
  | 13 => .ok .DateTime
  | 14 => .ok .UInt16
  | 15 => .ok .UInt32
  | 16 => .ok .UInt64
  | 17 => .ok .Null
  | 18 => .ok .String
  | _ => .error .valueError

/-- `BinaryArrayType`, values 0–5. -/
inductive BinaryArrayType where
  | Single
  | Jagged
  | Rectangular
  | SingleOffset
  | JaggedOffset
  | RectangularOffset
  deriving DecidableEq, Repr

/-- Python `BinaryArrayType(byte)`. -/
def BinaryArrayType.ofByte (b : Nat) : Except PyErr BinaryArrayType :=
  match b with
  | 0 => .ok .Single
  | 1 => .ok .Jagged
  | 2 => .ok .Rectangular
  | 3 => .ok .SingleOffset
  | 4 => .ok .JaggedOffset
  | 5 => .ok .RectangularOffset
  | _ => .error .valueError

/-! ## `dotnet/structures.py` — extra type info, class info, null runs -/

/-- From `structures.ClassTypeInfo`: `(class_name, library)` where the reader
passes the raw stream library id as `library`.  `pyId` models Python object
identity (`id()`): `ClassTypeInfo` defines no `__eq__`, so `==` between two
`ClassTypeInfo` objects compares identity, and every `ClassTypeInfo`
constructed while parsing is a fresh object with a fresh `pyId`. -/
structure ClassTypeInfo where
  className : String
  libraryId : Int
  pyId : Nat
  deriving DecidableEq, Repr

/-- The runtime values a member's extra-info slot can hold
(`structures.ExtraInfoType`): a `PrimitiveType` member, a string, a
`ClassTypeInfo`, or Python `None`. -/
inductive ExtraInfo where
  | prim (p : PrimitiveType)
  | str (s : String)
  | classInfo (c : ClassTypeInfo)
  | noInfo
  deriving DecidableEq, Repr

/-- Python `==` between extra-info values: enum members and strings compare
by value, `None` equals only `None`, and `ClassTypeInfo` (having no `__eq__`)
compares by object identity. -/
def extraInfoPyEq : ExtraInfo → ExtraInfo → Bool
  | .prim a, .prim b => a = b
  | .str a, .str b => a = b
  | .classInfo a, .classInfo b => a.pyId = b.pyId
  | .noInfo, .noInfo => true
  | _, _ => false

namespace ExtraTypeInfo

/-- From `structures.ExtraTypeInfo.validate`. -/
def validate (bin_type : BinaryType) (value : ExtraInfo) : Bool :=
  if bin_type = .Primitive ∨ bin_type = .PrimitiveArray then
    match value with
    | .prim _ => true
    | _ => false
  else if bin_type = .SystemClass then
    match value with
    | .str _ => true
    | _ => false
  else if bin_type = .Class then
    match value with
    | .classInfo _ => true
    | _ => false
  else
    match value with
    | .noInfo => true
    | _ => false

/-- From `structures.ExtraTypeInfo.check`: raise `InvalidExtraInfoValue` when
validation fails. -/
def check (bin_type : BinaryType) (value : ExtraInfo) : Except PyErr Unit :=
  if validate bin_type value then .ok () else .error .invalidExtraInfoValue

end ExtraTypeInfo

/-- From `object.Member`: `(index, name, binary_type, extra_info)`. -/
structure Member where
  index : Int
  name : String
  binaryType : BinaryType
  extraInfo : ExtraInfo
  deriving DecidableEq, Repr

/-- From `object.Member.__init__`: validation runs before the fields are
stored; a mismatched pairing raises `InvalidExtraInfoValue`. -/
def mkMember (index : Int) (name : String) (bin_type : BinaryType)
    (extra_type_info : ExtraInfo) : Except PyErr Member :=
  match ExtraTypeInfo.check bin_type extra_type_info with
  | .error e => .error e
  | .ok _ => .ok ⟨index, name, bin_type, extra_type_info⟩

/-- From `object.Member.__eq__`: equality of index, name, binary type and
extra info (the latter by Python `==`, hence identity for `ClassTypeInfo`). -/
def memberPyEq (a b : Member) : Bool :=
  a.index = b.index ∧ a.name = b.name ∧ a.binaryType = b.binaryType
    ∧ extraInfoPyEq a.extraInfo b.extraInfo

/-- C9: extra-info validation accepts exactly the pairings of §3 — a
`PrimitiveType` for `Primitive`/`PrimitiveArray`, a string for `SystemClass`,
a `ClassTypeInfo` for `Class`, and `None` for every other `BinaryType` — and
constructing a `Member` with any other pairing fails with the
invalid-extra-info error, while a valid pairing yields the member. -/
theorem c9_extra_info_validation :
    (∀ (bt : BinaryType) (v : ExtraInfo),
      ExtraTypeInfo.validate bt v = true ↔
        ((bt = .Primitive ∨ bt = .PrimitiveArray) ∧ ∃ p, v = .prim p)
        ∨ (bt = .SystemClass ∧ ∃ s, v = .str s)
        ∨ (bt = .Class ∧ ∃ c, v = .classInfo c)
        ∨ ((bt = .String ∨ bt = .Object ∨ bt = .ObjectArray ∨ bt = .StringArray)
            ∧ v = .noInfo))
    ∧ (∀ (i : Int) (nm : String) (bt : BinaryType) (v : ExtraInfo),
        (ExtraTypeInfo.validate bt v = false →
          mkMember i nm bt v = .error .invalidExtraInfoValue)
        ∧ (ExtraTypeInfo.validate bt v = true →
          mkMember i nm bt v = .ok ⟨i, nm, bt, v⟩)) := by
  constructor
  · intro bt v
    cases bt <;> cases v <;>
      simp [ExtraTypeInfo.validate]
  · intro i nm bt v
    constructor
    · intro hv
      simp [mkMember, ExtraTypeInfo.check, hv]
    · intro hv
      simp [mkMember, ExtraTypeInfo.check, hv]

/-- Witness for C9 at concrete pairings: `(Class, "System.Int32")` is
rejected both by `validate` and by the `Member` constructor, while
`(SystemClass, "System.Int32")` and `(Primitive, PrimitiveType.Byte)` are
accepted. -/
theorem c9_extra_info_validation_witness :
    ExtraTypeInfo.validate .Class (.str ("System.Int32")) = false
    ∧ mkMember 0 ("x") .Class (.str ("System.Int32")) = .error .invalidExtraInfoValue
    ∧ ExtraTypeInfo.validate .SystemClass (.str ("System.Int32")) = true
    ∧ mkMember 0 ("x") .Primitive (.prim .Byte) =
        .ok ⟨0, "x", .Primitive, .prim .Byte⟩ := by
  refine ⟨rfl, ?_, rfl, ?_⟩
  · exact (c9_extra_info_validation.2 0 ("x") .Class (.str ("System.Int32"))).1 rfl
  · exact (c9_extra_info_validation.2 0 ("x") .Primitive (.prim .Byte)).2 rfl

/-! ## `dotnet/primitives.py` — `Decimal` -/

/-- Python `48 <= ord(c) <= 57`. -/
def isDigitChar (c : Char) : Bool := 48 ≤ c.toNat ∧ c.toNat ≤ 57

/-- From `Decimal.verify`: the decimal grammar — optional leading `-`, a
digit run, optionally `.` and another digit run; at least one digit; no
trailing dot. -/
def decimal_verify (value : String) : Bool :=
  let chars := value.data
  match chars with
  | [] => false
  | c0 :: rest =>
    let body := if c0 = '-' then (if rest.isEmpty then none else some rest) else some chars
    match body with
    | none => false
    | some l1 =>
      let d1 := (l1.takeWhile isDigitChar).length
      let l2 := l1.dropWhile isDigitChar
      match l2 with
      | [] => decide (d1 > 0)
      | c2 :: l3 =>
        if c2 = '.' then
          if d1 = 0 ∨ l3.isEmpty then false
          else
            let d2 := (l3.takeWhile isDigitChar).length
            let l4 := l3.dropWhile isDigitChar
            match l4 with
            | [] => decide (d1 + d2 > 0)
            | _ => false
        else false

/-- Index of the `k`-th digit character (0-based among digits) in a
character list, if it exists.  Used to locate the 29th significant digit
of `Decimal.round`'s scanning loop. -/
def nth_digit_idx : List Char → Nat → Option Nat
  | [], _ => none
  | c :: rest, k =>
    if isDigitChar c then
      if k = 0 then some 0
      else (nth_digit_idx rest (k - 1)).map (· + 1)
    else (nth_digit_idx rest k).map (· + 1)

/-- From the carry loop inside `Decimal.round`: increment the digit at
`last_idx`, propagating carries leftward and hopping over the decimal point;
returns the updated characters, the final `last_idx`, the
`round_past_decimal` flag, and the final `running` flag (true when the carry
escaped past the first digit). -/
def decimal_round_loop (chars : List Char) (last_idx first_digit decimal_idx : Int)
    (round_past : Bool) : List Char × Int × Bool × Bool :=
  if last_idx < first_digit then (chars, last_idx, round_past, true)
  else
    let current := (chars.getD last_idx.toNat ('0')).toNat - 48 + 1
    let running := current ≥ 10
    let current2 := if current ≥ 10 then 0 else current
    let chars2 := chars.set last_idx.toNat (Char.ofNat (current2 + 48))
    let last_idx2 := if last_idx - 1 = decimal_idx then last_idx - 2 else last_idx - 1
    let round2 := if last_idx - 1 = decimal_idx then true else round_past
    if running then
      decimal_round_loop chars2 last_idx2 first_digit decimal_idx round2
    else (chars2, last_idx2, round2, false)
  termination_by (last_idx + 2 - first_digit).toNat
  decreasing_by
    simp only [not_lt] at *
    split <;> omega

/-- From `Decimal.round`: round a textual decimal at the 29th significant
digit.  Values of at most 29 significant digits pass through; a value whose
first 29 significant digits contain no decimal point collapses to the
signed saturation bound; otherwise the digits after the 29th are dropped and
the result rounded half-up.  (On the call paths — after `Decimal.verify` —
the character accesses below are always in range.) -/
def decimal_round (value : String) : String :=
  let l := value.data
  let str_len := l.length
  let negative := l.head? = some '-'
  if str_len ≤ 29 ∨ (negative ∧ str_len = 30) then value
  else
    match nth_digit_idx l 28 with
    | none => value
    | some last_idx =>
      if last_idx = str_len - 1 then value
      else
        let decIdx : Int :=
          match (l.take last_idx).findIdx? (· = '.') with
          | some d => (d : Int)
          | none => -1
        if decIdx = -1 then
          if negative then "-79228162514264337593543950334"
          else "79228162514264337593543950334"
        else
          let chars := l.take (last_idx + 1)
          let next_val := (l.getD (last_idx + 1) ('0')).toNat - 48
          if next_val < 5 then String.mk chars
          else
            let first_digit : Int := if negative then 1 else 0
            let r := decimal_round_loop chars (last_idx : Int) first_digit decIdx false
            let chars2 := r.1
            let last2 := r.2.1
            let round_past := r.2.2.1
            let running := r.2.2.2
            let chars3 :=
              if running then chars2.take first_digit.toNat ++ '1' :: chars2.drop first_digit.toNat
              else chars2
            if round_past then String.mk (chars3.take decIdx.toNat)
            else String.mk (chars3.take (last2 + 2).toNat)

/-- From `Decimal.convert`, the `int` branch: saturate to the .NET Decimal
bounds, else Python `str(value)`. -/
def decimal_convert_int (value : Int) : String :=
  if value > 79228162514264337593543950334 then "79228162514264337593543950334"
  else if value < -79228162514264337593543950334 then "-79228162514264337593543950334"
  else toString value

/-- From `Decimal.convert`, the `str` branch: grammar check, then rounding —
with no range check of any kind. -/
def decimal_convert_str (value : String) : Except PyErr String :=
  if decimal_verify value then .ok (decimal_round value) else .error .valueError

/-- Numeric value of a plain digit string (no sign, no dot); used only to
state that a textual input lies outside the Decimal range. -/
def digitStringVal (l : List Char) : Nat :=
  l.foldl (fun acc c => acc * 10 + (c.toNat - 48)) 0

/-- C7 counterexample: the textual input `'9'*29` (value `10^29 - 1`, outside
the claimed interval) is stored unsaturated, and the over-29-digit value
`12345678901234567890123456789.5` is replaced by the saturation bound rather
than being rounded half-up at its 29th significant digit (which would give
the in-range `12345678901234567890123456790`). -/
theorem c7_decimal_saturation_counterexample :
    decimal_convert_str ("99999999999999999999999999999") =
        .ok ("99999999999999999999999999999")
    ∧ digitStringVal ("99999999999999999999999999999").data = 10 ^ 29 - 1
    ∧ 79228162514264337593543950334 < 10 ^ 29 - 1
    ∧ ("99999999999999999999999999999" : String) ≠ "79228162514264337593543950334"
    ∧ decimal_convert_str ("12345678901234567890123456789.5") =
        .ok ("79228162514264337593543950334")
    ∧ digitStringVal ("12345678901234567890123456790").data ≤ 79228162514264337593543950334 := by
  exact ⟨rfl, by decide, by decide, by decide, rfl, by decide⟩

/-- C7 amended: integer constructor inputs outside the closed interval
`[-79228162514264337593543950334, 79228162514264337593543950334]` saturate to
the bound with matching sign and in-range integers are stored as their
decimal string, but textual inputs are never range-checked: every string
accepted by the decimal grammar is stored as `Decimal.round` of the text
(unsaturated), and strings failing the grammar raise `ValueError`. -/
theorem c7_decimal_saturation_amended :
    (∀ v : Int, 79228162514264337593543950334 < v →
      decimal_convert_int v = "79228162514264337593543950334")
    ∧ (∀ v : Int, v < -79228162514264337593543950334 →
      decimal_convert_int v = "-79228162514264337593543950334")
    ∧ (∀ v : Int, -79228162514264337593543950334 ≤ v →
      v ≤ 79228162514264337593543950334 → decimal_convert_int v = toString v)
    ∧ (∀ s : String, decimal_verify s = true →
      decimal_convert_str s = .ok (decimal_round s))
    ∧ (∀ s : String, decimal_verify s = false →
      decimal_convert_str s = .error .valueError) := by
  refine ⟨?_, ?_, ?_, ?_, ?_⟩
  · intro v hv
    unfold decimal_convert_int
    rw [if_pos (by omega)]
  · intro v hv
    unfold decimal_convert_int
    rw [if_neg (by omega), if_pos (by omega)]
  · intro v hv1 hv2
    unfold decimal_convert_int
    rw [if_neg (by omega), if_neg (by omega)]
  · intro s hs
    unfold decimal_convert_str
    rw [if_pos hs]
  · intro s hs
    unfold decimal_convert_str
    rw [if_neg (by simp [hs])]

/-- Witness for C7's amended theorem at concrete inputs. -/
theorem c7_decimal_saturation_amended_witness :
    decimal_convert_int (10 ^ 29) = "79228162514264337593543950334"
    ∧ decimal_convert_int (-(10 ^ 29)) = "-79228162514264337593543950334"
    ∧ decimal_convert_int 42 = toString (42 : Int)
    ∧ decimal_convert_str ("1.5") = .ok (decimal_round ("1.5"))
    ∧ decimal_convert_str ("x") = .error .valueError := by
  refine ⟨?_, ?_, ?_, ?_, ?_⟩
  · exact c7_decimal_saturation_amended.1 (10 ^ 29) (by norm_num)
  · exact c7_decimal_saturation_amended.2.1 (-(10 ^ 29)) (by norm_num)
  · exact c7_decimal_saturation_amended.2.2.1 42 (by norm_num) (by norm_num)
  · exact c7_decimal_saturation_amended.2.2.2.1 ("1.5") (by decide)
  · exact c7_decimal_saturation_amended.2.2.2.2 ("x") (by decide)

/-! ## Python's two's-complement bitwise operators on unbounded integers

Python's `&`, `|` and `>>` act on the infinite two's-complement
representation: `-(m+1)` has the bit pattern `NOT m`. -/

/-- Python `a & b` on `int`.  The bits of `-(n+1)` are `NOT n`, and
`m AND (NOT n)` equals `m - (m &&& n)` (clearing from `m` the bits it shares
with `n`). -/
def pyLand : Int → Int → Int
  | .ofNat m, .ofNat n => .ofNat (m &&& n)
  | .ofNat m, .negSucc n => .ofNat (m - (m &&& n))
  | .negSucc m, .ofNat n => .ofNat (n - (n &&& m))
  | .negSucc m, .negSucc n => .negSucc (m ||| n)

/-- Python `a | b` on `int`: `NOT m OR n = NOT (m AND NOT n)`. -/
def pyLor : Int → Int → Int
  | .ofNat m, .ofNat n => .ofNat (m ||| n)
  | .ofNat m, .negSucc n => .negSucc (n - (n &&& m))
  | .negSucc m, .ofNat n => .negSucc (m - (m &&& n))
  | .negSucc m, .negSucc n => .negSucc (m &&& n)

/-- Python `a >> k` on `int` (arithmetic shift, floor division by `2^k`),
which is exactly `Int.shiftRight`. -/
def pyShiftRight (a : Int) (k : Nat) : Int := Int.shiftRight a k

/-- Python `a << k` for non-negative `a`. -/
def pyShiftLeft (a : Int) (k : Nat) : Int :=
  match a with
  | .ofNat m => .ofNat (m <<< k)
  | .negSucc m => .negSucc ((m + 1) <<< k - 1)

/-- Little-endian unsigned integer value of a byte list
(Python `int.from_bytes(bs, 'little')`). -/
def int_from_bytes_le (bs : List Nat) : Nat :=
  match bs with
  | [] => 0
  | b :: rest => b + 256 * int_from_bytes_le rest

/-- Python `int.from_bytes(bs, 'little', signed=True)`. -/
def int_from_bytes_le_signed (bs : List Nat) : Int :=
  let u := int_from_bytes_le bs
  let w := 256 ^ bs.length
  if 2 * u < w then (u : Int) else (u : Int) - (w : Int)

/-! ## `dotnet/primitives.py` — `DateTime` -/

/-- `DateTime.Kind`. -/
inductive DateTimeKind where
  | NoTimeZone
  | UtcTime
  | LocalTime
  deriving DecidableEq, Repr

/-- The `IntEnum` value of a kind. -/
def DateTimeKind.toNat : DateTimeKind → Nat
  | .NoTimeZone => 0
  | .UtcTime => 1
  | .LocalTime => 2

/-- Python `DateTime.Kind(value)`: 0, 1 or 2, else `ValueError`. -/
def DateTimeKind.ofVal (v : Int) : Except PyErr DateTimeKind :=
  if v = 0 then .ok .NoTimeZone
  else if v = 1 then .ok .UtcTime
  else if v = 2 then .ok .LocalTime
  else .error .valueError

/-- From `DateTime.convert`, the `int` branch: the top two bits (through the
infinite two's-complement view) select the kind, the low 62 bits are the
ticks. -/
def dateTime_convert_int (value : Int) : Except PyErr (Int × DateTimeKind) :=
  let kind_value := pyShiftRight (pyLand value 0xC000000000000000) 62
  let tick_value := pyLand value 0x3FFFFFFFFFFFFFFF
  match DateTimeKind.ofVal kind_value with
  | .error e => .error e
  | .ok k => .ok (tick_value, k)

/-- From `DateTime.convert`, the `bytes` branch: exactly 8 bytes, read as a
little-endian signed 64-bit integer, then the `int` branch. -/
def dateTime_convert_bytes (bs : List Nat) : Except PyErr (Int × DateTimeKind) :=
  if bs.length ≠ 8 then .error .valueError
  else dateTime_convert_int (int_from_bytes_le_signed bs)

/-- From `DateTime.__int__`: `kind << 62 | ticks`. -/
def dateTime_to_int (ticks : Int) (kind : DateTimeKind) : Int :=
  pyLor (pyShiftLeft (kind.toNat : Int) 62) ticks

theorem nat_lor_shiftLeft_add {b : Nat} (a k : Nat) (h : b < 2 ^ k) :
    (a <<< k) ||| b = a * 2 ^ k + b := by
  apply Nat.eq_of_testBit_eq
  intro i
  have hrw : a * 2 ^ k + b = 2 ^ k * a + b := by ring
  rw [Nat.testBit_lor, Nat.testBit_shiftLeft, hrw, Nat.testBit_mul_pow_two_add a h i]
  by_cases hik : i < k
  · have hb : ¬(i ≥ k) := by omega
    simp [hik, hb]
  · have hge : i ≥ k := by omega
    have hbz : b.testBit i = false :=
      Nat.testBit_lt_two_pow
        (lt_of_lt_of_le h (Nat.pow_le_pow_right (by norm_num) (by omega)))
    simp [hge, hik, hbz]

theorem nat_and_top_two {v : Nat} (h : v < 2 ^ 64) :
    v &&& 13835058055282163712 = (v >>> 62) <<< 62 := by
  have hmask : (13835058055282163712 : Nat) = 2 ^ 62 ||| 2 ^ 63 := by decide
  apply Nat.eq_of_testBit_eq
  intro i
  rw [hmask, Nat.testBit_land, Nat.testBit_lor, Nat.testBit_shiftLeft,
    Nat.testBit_shiftRight, Nat.testBit_two_pow, Nat.testBit_two_pow]
  by_cases h62 : i = 62
  · subst h62
    simp
  · by_cases h63 : i = 63
    · subst h63
      simp
    · by_cases hlt : i < 62
      · have hnge : ¬(i ≥ 62) := by omega
        simp [hnge]
        intro _
        omega
      · have hge : i ≥ 64 := by omega
        have hvz : v.testBit i = false :=
          Nat.testBit_lt_two_pow
            (lt_of_lt_of_le h (Nat.pow_le_pow_right (by norm_num) (by omega)))
        have h62' : 62 + (i - 62) = i := by omega
        simp [h62, h63, hvz, h62']

theorem nat_and_low62 (v : Nat) : v &&& 4611686018427387903 = v % 2 ^ 62 := by
  have hmask : (4611686018427387903 : Nat) = 2 ^ 62 - 1 := by norm_num
  rw [hmask, nat_and_mask_eq_mod]

theorem pyLand_ofNat (m n : Nat) : pyLand (m : Int) (n : Int) = ((m &&& n : Nat) : Int) := rfl

theorem pyLor_ofNat (m n : Nat) : pyLor (m : Int) (n : Int) = ((m ||| n : Nat) : Int) := rfl

theorem pyShiftRight_ofNat (m k : Nat) :
    pyShiftRight (m : Int) k = ((m >>> k : Nat) : Int) := rfl

theorem pyShiftLeft_ofNat (m k : Nat) :
    pyShiftLeft (m : Int) k = ((m <<< k : Nat) : Int) := rfl

theorem dateTime_kind_bits {v : Nat} (h : v < 2 ^ 64) :
    pyShiftRight (pyLand (v : Int) 0xC000000000000000) 62 = ((v / 2 ^ 62 : Nat) : Int) := by
  show pyShiftRight (pyLand (v : Int) ((13835058055282163712 : Nat) : Int)) 62 = _
  rw [pyLand_ofNat, pyShiftRight_ofNat, nat_and_top_two h]
  have hsl : (v >>> 62) <<< 62 = (v >>> 62) * 2 ^ 62 := Nat.shiftLeft_eq _ _
  have hsr : ((v >>> 62) * 2 ^ 62) >>> 62 = v >>> 62 := by
    rw [Nat.shiftRight_eq_div_pow]
    exact Nat.mul_div_cancel _ (by norm_num)
  rw [hsl, hsr, Nat.shiftRight_eq_div_pow]

theorem dateTime_tick_bits (v : Nat) :
    pyLand (v : Int) 0x3FFFFFFFFFFFFFFF = ((v % 2 ^ 62 : Nat) : Int) := by
  show pyLand (v : Int) ((4611686018427387903 : Nat) : Int) = _
  rw [pyLand_ofNat, nat_and_low62]

/-- C8 counterexample: the signed 64-bit encoding `v = -2^63`
(bytes `00 00 00 00 00 00 00 80`) decodes to `(ticks, kind) = (0, local)`,
but `DateTime.__int__` re-encodes that pair to `2^63 ≠ v`: the round-trip
fails for every negative signed encoding (kind = local). -/
theorem c8_datetime_roundtrip_counterexample :
    int_from_bytes_le_signed [0, 0, 0, 0, 0, 0, 0, 128] = -(2 ^ 63)
    ∧ dateTime_convert_bytes [0, 0, 0, 0, 0, 0, 0, 128] = .ok (0, .LocalTime)
    ∧ dateTime_to_int 0 .LocalTime = 2 ^ 63
    ∧ ((2 : Int) ^ 63) ≠ -(2 ^ 63) := by
  exact ⟨by decide, by decide, by decide, by decide⟩

/-- C8 amended: under the unsigned reading of the 64-bit encoding — which
agrees bit-for-bit with the signed reading — decoding `v < 2^64` whose top
two bits are not both set yields `kind = v >> 62 ∈ {0,1,2}` and
`ticks = v mod 2^62`, and `DateTime.__int__` re-encodes the pair to exactly
`v`; an encoding with both top bits set (`kind` bits 3) is rejected with
`ValueError`.  (A negative signed encoding — kind `local` — re-encodes to
`v + 2^64`, as the counterexample shows at `v = -2^63`.) -/
theorem c8_datetime_roundtrip_amended :
    (∀ v : Nat, v < 2 ^ 64 → v / 2 ^ 62 ≠ 3 →
      ∃ k : DateTimeKind,
        k.toNat = v / 2 ^ 62
        ∧ dateTime_convert_int (v : Int) = .ok (((v % 2 ^ 62 : Nat) : Int), k)
        ∧ dateTime_to_int ((v % 2 ^ 62 : Nat) : Int) k = (v : Int))
    ∧ (∀ v : Nat, v < 2 ^ 64 → v / 2 ^ 62 = 3 →
        dateTime_convert_int (v : Int) = .error .valueError) := by
  constructor
  · intro v hv hk
    have hlt : v / 2 ^ 62 < 4 := by omega
    have hmod : v % 2 ^ 62 < 2 ^ 62 := Nat.mod_lt _ (by norm_num)
    have hcase : v / 2 ^ 62 = 0 ∨ v / 2 ^ 62 = 1 ∨ v / 2 ^ 62 = 2 := by omega
    have key : ∀ k : DateTimeKind, k.toNat = v / 2 ^ 62 →
        dateTime_convert_int (v : Int) = .ok (((v % 2 ^ 62 : Nat) : Int), k)
        ∧ dateTime_to_int ((v % 2 ^ 62 : Nat) : Int) k = (v : Int) := by
      intro k hkv
      constructor
      · unfold dateTime_convert_int
        rw [dateTime_kind_bits hv, dateTime_tick_bits, ← hkv]
        cases k <;> rfl
      · unfold dateTime_to_int
        rw [pyShiftLeft_ofNat, pyLor_ofNat, nat_lor_shiftLeft_add k.toNat 62 hmod]
        norm_cast
        omega
    rcases hcase with h0 | h1 | h2
    · exact ⟨.NoTimeZone, by simp only [DateTimeKind.toNat]; omega, (key .NoTimeZone (by simp only [DateTimeKind.toNat]; omega)).1,
        (key .NoTimeZone (by simp only [DateTimeKind.toNat]; omega)).2⟩
    · exact ⟨.UtcTime, by simp only [DateTimeKind.toNat]; omega, (key .UtcTime (by simp only [DateTimeKind.toNat]; omega)).1,
        (key .UtcTime (by simp only [DateTimeKind.toNat]; omega)).2⟩
    · exact ⟨.LocalTime, by simp only [DateTimeKind.toNat]; omega, (key .LocalTime (by simp only [DateTimeKind.toNat]; omega)).1,
        (key .LocalTime (by simp only [DateTimeKind.toNat]; omega)).2⟩
  · intro v hv h3
    unfold dateTime_convert_int
    rw [dateTime_kind_bits hv, dateTime_tick_bits, h3]
    rfl

/-- Witness for C8's amended theorem at `v = 2^62 + 7` (kind UTC, ticks 7)
and at `v = 3 * 2^62` (invalid kind bits). -/
theorem c8_datetime_roundtrip_amended_witness :
    (∃ k : DateTimeKind,
      k.toNat = (2 ^ 62 + 7) / 2 ^ 62
      ∧ dateTime_convert_int ((2 ^ 62 + 7 : Nat) : Int) =
          .ok ((((2 ^ 62 + 7) % 2 ^ 62 : Nat) : Int), k)
      ∧ dateTime_to_int ((((2 ^ 62 + 7) % 2 ^ 62 : Nat) : Int)) k =
          ((2 ^ 62 + 7 : Nat) : Int))
    ∧ dateTime_convert_int ((3 * 2 ^ 62 : Nat) : Int) = .error .valueError := by
  constructor
  · exact c8_datetime_roundtrip_amended.1 (2 ^ 62 + 7) (by norm_num) (by norm_num)
  · exact c8_datetime_roundtrip_amended.2 (3 * 2 ^ 62) (by norm_num) (by norm_num)

/-! ## `dotnet/object.py` — libraries, class schemas, instances -/

/-- From `object.Library`: only the fields participating in identity
(`__eq__`/`__hash__` use `(name, version)`) and the `system` flag. -/
structure Library where
  name : String
  version : String
  system : Bool
  deriving DecidableEq, Repr

/-- From `object.Library.__eq__`: name and version only. -/
def libraryPyEq (a b : Library) : Bool := a.name = b.name ∧ a.version = b.version

/-- From `object.ClassObject`: name, ordered members, the partial flag and
the owning library.  (`value_type` is mutable reader state, irrelevant to the
equality used by `build_class`.) -/
structure ClassObject where
  name : String
  members : List Member
  partialFlag : Bool
  library : Library
  deriving DecidableEq, Repr

/-- From `object.ClassObject.__eq__`: equal library (by `(name, version)`),
equal class name, equal member count, and member-by-member equality in
order. -/
def classObjectPyEq (a b : ClassObject) : Bool :=
  libraryPyEq a.library b.library && a.name = b.name
    && a.members.length = b.members.length
    && (List.zip a.members b.members).all fun p => memberPyEq p.1 p.2

/-- The primitive values (`dotnet/primitives.py`) as stored after reading.
`Double`/`Single` keep their raw little-endian bytes (their IEEE-754
interpretation is outside this embedding). -/
inductive PrimValTag where
  | pBool (b : Bool)
  | pByte (n : Nat)
  | pSByte (n : Int)
  | pChar (codepoint : Nat)
  | pDecimal (s : String)
  | pDouble (raw : List Nat)
  | pSingle (raw : List Nat)
  | pInt16 (n : Int)
  | pInt32 (n : Int)
  | pInt64 (n : Int)
  | pUInt16 (n : Nat)
  | pUInt32 (n : Nat)
  | pUInt64 (n : Nat)
  | pDateTime (ticks : Int) (kind : DateTimeKind)
  | pTimeSpan (n : Int)
  | pString (s : String)
  deriving DecidableEq, Repr

/-- The runtime member/element values the reader stores: Python `None`, an
`InstanceReference` (carrying its stream-local id), a `StringInstance`, a
primitive, a transient `NullReferenceMultiple` run, an `ObjectArray`, or a
`ClassInstance`. -/
inductive Val where
  | vnone
  | vref (objectId : Int)
  | vstr (s : String)
  | vprim (p : PrimValTag)
  | vnrm (count : Int)
  | vobjArray (data : List Val)
  | vclassInst (cls : ClassObject) (memberData : List Val)

/-- `dict.get` on the reader's id→instance table (insertion-ordered
association list). -/
def dictGet (m : List (Int × Val)) (k : Int) : Option Val :=
  (m.find? (fun e => e.1 = k)).map (fun e => e.2)

/-- `k in d.keys()`. -/
def dictContains (m : List (Int × Val)) (k : Int) : Bool :=
  m.any (fun e => e.1 = k)

/-- `d[k] = v`: replace an existing binding in place, else append. -/
def dictSet (m : List (Int × Val)) (k : Int) (v : Val) : List (Int × Val) :=
  if dictContains m k then m.map (fun e => if e.1 = k then (k, v) else e)
  else m ++ [(k, v)]

/-- From `object.ArrayInstance.resolve_references`: rewrite each
`InstanceReference` slot — id 0 becomes an explicit `None`; otherwise the
table entry, raising `InvalidReferenceError` in strict mode when absent
(and writing `None` when permissive). -/
def resolve_array_slot (object_map : List (Int × Val)) (strict : Bool)
    (value : Val) : Except PyErr Val :=
  match value with
  | .vref oid =>
    if oid = 0 then .ok .vnone
    else
      match dictGet object_map oid with
      | none => if strict then .error .invalidReferenceError else .ok .vnone
      | some new_value => .ok new_value
  | v => .ok v

def resolve_array_data (data : List Val) (object_map : List (Int × Val))
    (strict : Bool) : Except PyErr (List Val) :=
  match data with
  | [] => .ok []
  | value :: rest =>
    match resolve_array_slot object_map strict value with
    | .error e => .error e
    | .ok w =>
      match resolve_array_data rest object_map strict with
      | .error e => .error e
      | .ok ws => .ok (w :: ws)

/-- From `object.ClassInstance.resolve_references`: rewrite each
`InstanceReference` member by table lookup — with no special case for id 0:
a zero (or otherwise unregistered) id raises `InvalidReferenceError` in
strict mode and becomes `None` when permissive. -/
def resolve_class_slot (object_map : List (Int × Val)) (strict : Bool)
    (value : Val) : Except PyErr Val :=
  match value with
  | .vref oid =>
    match dictGet object_map oid with
    | none => if strict then .error .invalidReferenceError else .ok .vnone
    | some new_value => .ok new_value
  | v => .ok v

def resolve_class_data (member_data : List Val) (object_map : List (Int × Val))
    (strict : Bool) : Except PyErr (List Val) :=
  match member_data with
  | [] => .ok []
  | value :: rest =>
    match resolve_class_slot object_map strict value with
    | .error e => .error e
    | .ok w =>
      match resolve_class_data rest object_map strict with
      | .error e => .error e
      | .ok ws => .ok (w :: ws)

/-- Per-slot result relation of `ArrayInstance.resolve_references`. -/
def arr_slot_rel (m : List (Int × Val)) (strict : Bool) (v w : Val) : Prop :=
  match v with
  | .vref oid =>
    if oid = 0 then w = .vnone
    else
      match dictGet m oid with
      | none => strict = false ∧ w = .vnone
      | some nv => w = nv
  | v => w = v

/-- Per-slot result relation of `ClassInstance.resolve_references`. -/
def cls_slot_rel (m : List (Int × Val)) (strict : Bool) (v w : Val) : Prop :=
  match v with
  | .vref oid =>
    match dictGet m oid with
    | none => strict = false ∧ w = .vnone
    | some nv => w = nv
  | v => w = v

theorem resolve_array_slot_ok_iff (m : List (Int × Val)) (s : Bool) (v w : Val) :
    resolve_array_slot m s v = .ok w ↔ arr_slot_rel m s v w := by
  cases v <;>
    simp only [resolve_array_slot, arr_slot_rel, Except.ok.injEq] <;>
    try exact eq_comm
  case vref oid =>
    by_cases h0 : oid = 0
    · subst h0
      simp [eq_comm]
    · simp only [if_neg h0]
      cases hl : dictGet m oid
      · cases s <;> simp [eq_comm]
      · simp [eq_comm]

theorem resolve_class_slot_ok_iff (m : List (Int × Val)) (s : Bool) (v w : Val) :
    resolve_class_slot m s v = .ok w ↔ cls_slot_rel m s v w := by
  cases v <;>
    simp only [resolve_class_slot, cls_slot_rel, Except.ok.injEq] <;>
    try exact eq_comm
  case vref oid =>
    cases hl : dictGet m oid
    · cases s <;> simp [eq_comm]
    · simp [eq_comm]

theorem resolve_array_slot_err_iff (m : List (Int × Val)) (s : Bool) (v : Val) :
    (∃ e, resolve_array_slot m s v = .error e) ↔
      (s = true ∧ ∃ oid, v = .vref oid ∧ oid ≠ 0 ∧ dictGet m oid = none) := by
  cases v <;> simp only [resolve_array_slot] <;> try simp
  case vref oid =>
    by_cases h0 : oid = 0
    · simp [h0]
    · simp only [if_neg h0]
      cases hl : dictGet m oid
      · cases s <;> simp [h0]
      · simp [h0, hl]

theorem resolve_class_slot_err_iff (m : List (Int × Val)) (s : Bool) (v : Val) :
    (∃ e, resolve_class_slot m s v = .error e) ↔
      (s = true ∧ ∃ oid, v = .vref oid ∧ dictGet m oid = none) := by
  cases v <;> simp only [resolve_class_slot] <;> try simp
  case vref oid =>
    cases hl : dictGet m oid
    · cases s <;> simp [hl]
    · simp [hl]

theorem resolve_array_data_ok_iff (m : List (Int × Val)) (s : Bool) :
    ∀ (data out : List Val),
      resolve_array_data data m s = .ok out ↔ List.Forall₂ (arr_slot_rel m s) data out := by
  intro data
  induction data with
  | nil =>
    intro out
    constructor
    · intro h
      cases h
      exact List.Forall₂.nil
    · intro h
      cases h
      rfl
  | cons v rest ih =>
    intro out
    constructor
    · intro h
      unfold resolve_array_data at h
      cases hs : resolve_array_slot m s v with
      | error e => rw [hs] at h; cases h
      | ok w =>
        rw [hs] at h
        cases hr : resolve_array_data rest m s with
        | error e => rw [hr] at h; cases h
        | ok ws =>
          rw [hr] at h
          cases h
          exact List.Forall₂.cons ((resolve_array_slot_ok_iff m s v w).mp hs) ((ih ws).mp hr)
    · intro h
      cases h with
      | cons hrel hrest =>
        unfold resolve_array_data
        rw [(resolve_array_slot_ok_iff m s v _).mpr hrel, (ih _).mpr hrest]

theorem resolve_class_data_ok_iff (m : List (Int × Val)) (s : Bool) :
    ∀ (data out : List Val),
      resolve_class_data data m s = .ok out ↔ List.Forall₂ (cls_slot_rel m s) data out := by
  intro data
  induction data with
  | nil =>
    intro out
    constructor
    · intro h
      cases h
      exact List.Forall₂.nil
    · intro h
      cases h
      rfl
  | cons v rest ih =>
    intro out
    constructor
    · intro h
      unfold resolve_class_data at h
      cases hs : resolve_class_slot m s v with
      | error e => rw [hs] at h; cases h
      | ok w =>
        rw [hs] at h
        cases hr : resolve_class_data rest m s with
        | error e => rw [hr] at h; cases h
        | ok ws =>
          rw [hr] at h
          cases h
          exact List.Forall₂.cons ((resolve_class_slot_ok_iff m s v w).mp hs) ((ih ws).mp hr)
    · intro h
      cases h with
      | cons hrel hrest =>
        unfold resolve_class_data
        rw [(resolve_class_slot_ok_iff m s v _).mpr hrel, (ih _).mpr hrest]

theorem resolve_array_data_err_iff (m : List (Int × Val)) (s : Bool) :
    ∀ data : List Val,
      (∃ e, resolve_array_data data m s = .error e) ↔
        (s = true ∧ ∃ oid, Val.vref oid ∈ data ∧ oid ≠ 0 ∧ dictGet m oid = none) := by
  intro data
  induction data with
  | nil => simp [resolve_array_data]
  | cons v rest ih =>
    constructor
    · intro ⟨e, he⟩
      unfold resolve_array_data at he
      cases hs : resolve_array_slot m s v with
      | error e2 =>
        have := (resolve_array_slot_err_iff m s v).mp ⟨e2, hs⟩
        obtain ⟨hstrict, oid, hv, h0, hl⟩ := this
        exact ⟨hstrict, oid, by simp [hv], h0, hl⟩
      | ok w =>
        rw [hs] at he
        cases hr : resolve_array_data rest m s with
        | error e3 =>
          have := ih.mp ⟨e3, hr⟩
          obtain ⟨hstrict, oid, hmem, h0, hl⟩ := this
          exact ⟨hstrict, oid, by simp [hmem], h0, hl⟩
        | ok ws => rw [hr] at he; cases he
    · intro ⟨hstrict, oid, hmem, h0, hl⟩
      rcases List.mem_cons.mp hmem with hv | hmem2
      · have herr : ∃ e, resolve_array_slot m s v = .error e :=
          (resolve_array_slot_err_iff m s v).mpr ⟨hstrict, oid, hv.symm, h0, hl⟩
        obtain ⟨e, he⟩ := herr
        exact ⟨e, by unfold resolve_array_data; rw [he]⟩
      · obtain ⟨e, he⟩ := ih.mpr ⟨hstrict, oid, hmem2, h0, hl⟩
        cases hs : resolve_array_slot m s v with
        | error e2 => exact ⟨e2, by unfold resolve_array_data; rw [hs]⟩
        | ok w => exact ⟨e, by unfold resolve_array_data; rw [hs, he]⟩

theorem resolve_class_data_err_iff (m : List (Int × Val)) (s : Bool) :
    ∀ data : List Val,
      (∃ e, resolve_class_data data m s = .error e) ↔
        (s = true ∧ ∃ oid, Val.vref oid ∈ data ∧ dictGet m oid = none) := by
  intro data
  induction data with
  | nil => simp [resolve_class_data]
  | cons v rest ih =>
    constructor
    · intro ⟨e, he⟩
      unfold resolve_class_data at he
      cases hs : resolve_class_slot m s v with
      | error e2 =>
        have := (resolve_class_slot_err_iff m s v).mp ⟨e2, hs⟩
        obtain ⟨hstrict, oid, hv, hl⟩ := this
        exact ⟨hstrict, oid, by simp [hv], hl⟩
      | ok w =>
        rw [hs] at he
        cases hr : resolve_class_data rest m s with
        | error e3 =>
          have := ih.mp ⟨e3, hr⟩
          obtain ⟨hstrict, oid, hmem, hl⟩ := this
          exact ⟨hstrict, oid, by simp [hmem], hl⟩
        | ok ws => rw [hr] at he; cases he
    · intro ⟨hstrict, oid, hmem, hl⟩
      rcases List.mem_cons.mp hmem with hv | hmem2
      · have herr : ∃ e, resolve_class_slot m s v = .error e :=
          (resolve_class_slot_err_iff m s v).mpr ⟨hstrict, oid, hv.symm, hl⟩
        obtain ⟨e, he⟩ := herr
        exact ⟨e, by unfold resolve_class_data; rw [he]⟩
      · obtain ⟨e, he⟩ := ih.mpr ⟨hstrict, oid, hmem2, hl⟩
        cases hs : resolve_class_slot m s v with
        | error e2 => exact ⟨e2, by unfold resolve_class_data; rw [hs]⟩
        | ok w => exact ⟨e, by unfold resolve_class_data; rw [hs, he]⟩

/-- C1 counterexample: a zero-id `InstanceReference` inside a class
instance's member data is not replaced by null — in strict mode (the
default; the reader's fix-up pass always resolves strictly) it raises
`InvalidReferenceError` — whereas the same reference in an array is
replaced by an explicit null. -/
theorem c1_resolve_zero_reference_counterexample :
    resolve_class_data [Val.vref 0] [] true = .error .invalidReferenceError
    ∧ resolve_array_data [Val.vref 0] [] true = .ok [Val.vnone] := by
  exact ⟨rfl, rfl⟩

/-- C1 amended: array fix-up replaces a zero-id reference with an explicit
null, a registered nonzero id with the registered instance, and raises
`InvalidReferenceError` in strict mode exactly when some nonzero id is
unregistered (permissive mode writes null there instead).  Class-instance
fix-up has no zero special case: every reference id, zero included, is
looked up in the table, the member is replaced by the registered instance,
and strict mode raises exactly when some referenced id (including zero,
which is never registered) is absent. -/
theorem c1_resolve_references_amended :
    (∀ (m : List (Int × Val)) (s : Bool) (data out : List Val),
      resolve_array_data data m s = .ok out ↔ List.Forall₂ (arr_slot_rel m s) data out)
    ∧ (∀ (m : List (Int × Val)) (s : Bool) (data : List Val),
      (∃ e, resolve_array_data data m s = .error e) ↔
        (s = true ∧ ∃ oid, Val.vref oid ∈ data ∧ oid ≠ 0 ∧ dictGet m oid = none))
    ∧ (∀ (m : List (Int × Val)) (s : Bool) (data out : List Val),
      resolve_class_data data m s = .ok out ↔ List.Forall₂ (cls_slot_rel m s) data out)
    ∧ (∀ (m : List (Int × Val)) (s : Bool) (data : List Val),
      (∃ e, resolve_class_data data m s = .error e) ↔
        (s = true ∧ ∃ oid, Val.vref oid ∈ data ∧ dictGet m oid = none)) :=
  ⟨fun m s => resolve_array_data_ok_iff m s,
   fun m s => resolve_array_data_err_iff m s,
   fun m s => resolve_class_data_ok_iff m s,
   fun m s => resolve_class_data_err_iff m s⟩

/-- Witness for C1's amended theorem at a concrete table: id 3 registered as
a string instance resolves in both an array and a class instance, and the
strict-mode error condition reproduces the counterexample's class-side
failure. -/
theorem c1_resolve_references_amended_witness :
    resolve_array_data [Val.vref 3, Val.vnone] [(3, Val.vstr ("a"))] true =
        .ok [Val.vstr ("a"), Val.vnone]
    ∧ resolve_class_data [Val.vref 3] [(3, Val.vstr ("a"))] true =
        .ok [Val.vstr ("a")]
    ∧ (∃ e, resolve_class_data [Val.vref 0] [] true = .error e) := by
  refine ⟨?_, ?_, ?_⟩
  · exact (c1_resolve_references_amended.1 [(3, Val.vstr ("a"))] true
      [Val.vref 3, Val.vnone] [Val.vstr ("a"), Val.vnone]).mpr
      (List.Forall₂.cons (by simp [arr_slot_rel, dictGet])
        (List.Forall₂.cons (by simp [arr_slot_rel]) List.Forall₂.nil))
  · exact (c1_resolve_references_amended.2.2.1 [(3, Val.vstr ("a"))] true
      [Val.vref 3] [Val.vstr ("a")]).mpr
      (List.Forall₂.cons (by simp [cls_slot_rel, dictGet]) List.Forall₂.nil)
  · exact (c1_resolve_references_amended.2.2.2 [] true [Val.vref 0]).mpr
      (by simp [dictGet])

/-! ## Stream primitives (`dotnet/utils.py`, `BinaryReader` low-level reads)

A byte stream is a `List Nat`; `fp.read(n)` returns up to `n` bytes
(`take`/`drop`), and indexing an empty read raises `IndexError`.
`PyErr.modelGap` is not a Python error: it marks record handlers that are
outside this embedding (nested arrays, class records, header and library
records invoked from inside an element loop); no theorem relies on it. -/

/-- From `utils.read_multi_byte_int`: pull 1–5 bytes from the stream
following the continuation bits, then decode them.  An exhausted stream
raises `IndexError` (`byte_str[i]` on a short string). -/
def read_multi_byte_int (bs : List Nat) : Except PyErr (Nat × List Nat) :=
  match bs with
  | [] => .error .indexError
  | b0 :: r0 =>
    if b0 &&& 0x80 = 0 then
      match decode_multi_byte_int [b0] with
      | .error e => .error e
      | .ok p => .ok (p.2, r0)
    else
      match r0 with
      | [] => .error .indexError
      | b1 :: r1 =>
        if b1 &&& 0x80 = 0 then
          match decode_multi_byte_int [b0, b1] with
          | .error e => .error e
          | .ok p => .ok (p.2, r1)
        else
          match r1 with
          | [] => .error .indexError
          | b2 :: r2 =>
            if b2 &&& 0x80 = 0 then
              match decode_multi_byte_int [b0, b1, b2] with
              | .error e => .error e
              | .ok p => .ok (p.2, r2)
            else
              match r2 with
              | [] => .error .indexError
              | b3 :: r3 =>
                if b3 &&& 0x80 = 0 then
                  match decode_multi_byte_int [b0, b1, b2, b3] with
                  | .error e => .error e
                  | .ok p => .ok (p.2, r3)
                else
                  match r3 with
                  | [] => .error .indexError
                  | b4 :: r4 =>
                    match decode_multi_byte_int [b0, b1, b2, b3, b4] with
                    | .error e => .error e
                    | .ok p => .ok (p.2, r4)

/-- Strict UTF-8 decoding (Python `bytes.decode('utf-8')`): rejects
continuation-byte leads, overlong forms, surrogates, codepoints above
U+10FFFF and truncated sequences.  The fuel argument (instantiated with the
input length) keeps the recursion structural. -/
def decodeUtf8Fuel : Nat → List Nat → Except PyErr (List Nat)
  | _, [] => .ok []
  | 0, _ :: _ => .error .unicodeDecodeError
  | fuel + 1, b :: rest =>
    if b < 0x80 then
      match decodeUtf8Fuel fuel rest with
      | .error e => .error e
      | .ok cps => .ok (b :: cps)
    else if b < 0xC2 then .error .unicodeDecodeError
    else if b < 0xE0 then
      match rest with
      | b1 :: rest1 =>
        if 0x80 ≤ b1 ∧ b1 ≤ 0xBF then
          match decodeUtf8Fuel fuel rest1 with
          | .error e => .error e
          | .ok cps => .ok (((b - 0xC0) * 64 + (b1 - 0x80)) :: cps)
        else .error .unicodeDecodeError
      | [] => .error .unicodeDecodeError
    else if b < 0xF0 then
      match rest with
      | b1 :: b2 :: rest2 =>
        if (if b = 0xE0 then 0xA0 else 0x80) ≤ b1 ∧ b1 ≤ (if b = 0xED then 0x9F else 0xBF)
            ∧ 0x80 ≤ b2 ∧ b2 ≤ 0xBF then
          match decodeUtf8Fuel fuel rest2 with
          | .error e => .error e
          | .ok cps => .ok (((b - 0xE0) * 4096 + (b1 - 0x80) * 64 + (b2 - 0x80)) :: cps)
        else .error .unicodeDecodeError
      | _ => .error .unicodeDecodeError
    else if b < 0xF5 then
      match rest with
      | b1 :: b2 :: b3 :: rest3 =>
        if (if b = 0xF0 then 0x90 else 0x80) ≤ b1 ∧ b1 ≤ (if b = 0xF4 then 0x8F else 0xBF)
            ∧ 0x80 ≤ b2 ∧ b2 ≤ 0xBF ∧ 0x80 ≤ b3 ∧ b3 ≤ 0xBF then
          match decodeUtf8Fuel fuel rest3 with
          | .error e => .error e
          | .ok cps =>
            .ok (((b - 0xF0) * 262144 + (b1 - 0x80) * 4096 + (b2 - 0x80) * 64 + (b3 - 0x80)) :: cps)
        else .error .unicodeDecodeError
      | _ => .error .unicodeDecodeError
    else .error .unicodeDecodeError

def decodeUtf8 (bs : List Nat) : Except PyErr (List Nat) :=
  decodeUtf8Fuel bs.length bs

def codepointsToString (cps : List Nat) : String :=
  String.mk (cps.map Char.ofNat)

/-- From `BinaryReader.read_string_raw`: multi-byte length prefix, then that
many bytes of UTF-8.  A short read is `IOError` (unexpected EOF); the
`length < 0` strictness branch in the source is dead, since the decoded
multi-byte value is non-negative. -/
def read_string_raw (bs : List Nat) : Except PyErr (String × List Nat) :=
  match read_multi_byte_int bs with
  | .error e => .error e
  | .ok (length, bs1) =>
    let bytes_string := bs1.take length
    if bytes_string.length ≠ length then .error .ioError
    else
      match decodeUtf8 bytes_string with
      | .error e => .error e
      | .ok cps => .ok (codepointsToString cps, bs1.drop length)

/-- From `BinaryReader.read_char`: the first byte decides how many
continuation bytes to pull; `Char`'s constructor then insists the bytes
decode to exactly one codepoint. -/
def read_char (bs : List Nat) : Except PyErr (PrimValTag × List Nat) :=
  match bs with
  | [] => .error .indexError
  | first_byte :: r =>
    let extra :=
      if first_byte > 127 then
        if first_byte ≥ 0xF0 then 3 else if first_byte ≥ 0xE0 then 2 else 1
      else 0
    match decodeUtf8 (first_byte :: r.take extra) with
    | .error e => .error e
    | .ok cps =>
      if cps.length ≠ 1 then .error .valueError
      else .ok (.pChar (cps.headD 0), r.drop extra)

/-- From `BinaryReader.read_decimal`: multi-byte length, then that many
bytes (or as many as remain) parsed by `Decimal`'s textual constructor. -/
def read_decimal (bs : List Nat) : Except PyErr (PrimValTag × List Nat) :=
  match read_multi_byte_int bs with
  | .error e => .error e
  | .ok (length, bs1) =>
    match decodeUtf8 (bs1.take length) with
    | .error e => .error e
    | .ok cps =>
      match decimal_convert_str (codepointsToString cps) with
      | .error e => .error e
      | .ok d => .ok (.pDecimal d, bs1.drop length)

/-- `fp.read(n)` followed by a fixed-width constructor that insists on
exactly `n` bytes (each `convert` raises `ValueError` on a short buffer). -/
def take_exact (n : Nat) (bs : List Nat) : Except PyErr (List Nat × List Nat) :=
  if (bs.take n).length ≠ n then .error .valueError
  else .ok (bs.take n, bs.drop n)

/-- From `BinaryReader.read_primitive_type`: look up the primitive class by
`PrimitiveType` (no class exists for `Null`), then read its fixed width —
or delegate to the char/string/decimal readers for the variable-width
kinds. -/
def read_primitive_type (primitive_type : PrimitiveType) (bs : List Nat) :
    Except PyErr (PrimValTag × List Nat) :=
  match primitive_type with
  | .Null => .error .valueError
  | .Char => read_char bs
  | .String =>
    match read_string_raw bs with
    | .error e => .error e
    | .ok (s, r) => .ok (.pString s, r)
  | .Decimal => read_decimal bs
  | .Boolean =>
    match bs with
    | [] => .error .valueError
    | b :: r => .ok (.pBool (b ≠ 0), r)
  | .Byte =>
    match bs with
    | [] => .error .valueError
    | b :: r => .ok (.pByte b, r)
  | .SByte =>
    match bs with
    | [] => .error .valueError
    | b :: r => .ok (.pSByte (int_from_bytes_le_signed [b]), r)
  | .Int16 =>
    match take_exact 2 bs with
    | .error e => .error e
    | .ok (c, r) => .ok (.pInt16 (int_from_bytes_le_signed c), r)
  | .Int32 =>
    match take_exact 4 bs with
    | .error e => .error e
    | .ok (c, r) => .ok (.pInt32 (int_from_bytes_le_signed c), r)
  | .Int64 =>
    match take_exact 8 bs with
    | .error e => .error e
    | .ok (c, r) => .ok (.pInt64 (int_from_bytes_le_signed c), r)
  | .UInt16 =>
    match take_exact 2 bs with
    | .error e => .error e
    | .ok (c, r) => .ok (.pUInt16 (int_from_bytes_le c), r)
  | .UInt32 =>
    match take_exact 4 bs with
    | .error e => .error e
    | .ok (c, r) => .ok (.pUInt32 (int_from_bytes_le c), r)
  | .UInt64 =>
    match take_exact 8 bs with
    | .error e => .error e
    | .ok (c, r) => .ok (.pUInt64 (int_from_bytes_le c), r)
  | .Single =>
    match take_exact 4 bs with
    | .error e => .error e
    | .ok (c, r) => .ok (.pSingle c, r)
  | .Double =>
    match take_exact 8 bs with
    | .error e => .error e
    | .ok (c, r) => .ok (.pDouble c, r)
  | .TimeSpan =>
    match take_exact 8 bs with
    | .error e => .error e
    | .ok (c, r) => .ok (.pTimeSpan (int_from_bytes_le_signed c), r)
  | .DateTime =>
    match take_exact 8 bs with
    | .error e => .error e
    | .ok (c, r) =>
      match dateTime_convert_bytes c with
      | .error e => .error e
      | .ok (t, k) => .ok (.pDateTime t k, r)

/-! ## `BinaryReader` record handlers -/

/-- The reader's per-message working state: the stream-local id→instance
table and the pending-reference parents. -/
structure ReadState where
  objects : List (Int × Val)
  referenceParents : List Val

/-- From `BinaryReader.register_object`: error when the stream-local id is
already bound, else bind it. -/
def register_object (st : ReadState) (inst : Val) (state_object_id : Int) :
    Except PyErr ReadState :=
  if dictContains st.objects state_object_id then .error .valueError
  else .ok ⟨dictSet st.objects state_object_id inst, st.referenceParents⟩

/-- From `BinaryReader.read_string` (`BinaryObjectString`): object id, then
a raw string.  The instance is written into the id table DIRECTLY
(`self._objects[state_object_id] = value`), bypassing `register_object` and
its duplicate-id check. -/
def read_string (st : ReadState) (bs : List Nat) :
    Except PyErr (ReadState × Val × List Nat) :=
  let state_object_id := int_from_bytes_le_signed (bs.take 4)
  let bs1 := bs.drop 4
  match read_string_raw bs1 with
  | .error e => .error e
  | .ok (str_value, bs2) =>
    let value := Val.vstr str_value
    .ok (⟨dictSet st.objects state_object_id value, st.referenceParents⟩, value, bs2)

/-- From `BinaryReader.read_reference` (`MemberReference`): the id is read
but neither checked nor registered — forward references are legal. -/
def read_reference (st : ReadState) (bs : List Nat) :
    Except PyErr (ReadState × Val × List Nat) :=
  .ok (st, .vref (int_from_bytes_le_signed (bs.take 4)), bs.drop 4)

/-- From `BinaryReader.read_null` (`ObjectNull`). -/
def read_null (st : ReadState) (bs : List Nat) :
    Except PyErr (ReadState × Val × List Nat) :=
  .ok (st, .vnone, bs)

/-- From `BinaryReader.read_null_multiple` (`ObjectNullMultiple`): a signed
int32 count. -/
def read_null_multiple (st : ReadState) (bs : List Nat) :
    Except PyErr (ReadState × Val × List Nat) :=
  .ok (st, .vnrm (int_from_bytes_le_signed (bs.take 4)), bs.drop 4)

/-- From `BinaryReader.read_null_multiple_256` (`ObjectNullMultiple256`): a
single byte count. -/
def read_null_multiple_256 (st : ReadState) (bs : List Nat) :
    Except PyErr (ReadState × Val × List Nat) :=
  match bs with
  | [] => .error .indexError
  | b :: r => .ok (st, .vnrm b, r)

/-- From `BinaryReader.read_primitive` (`MemberPrimitiveTyped`). -/
def read_primitive (st : ReadState) (bs : List Nat) :
    Except PyErr (ReadState × Val × List Nat) :=
  match bs with
  | [] => .error .indexError
  | b :: r =>
    match PrimitiveType.ofByte b with
    | .error e => .error e
    | .ok p =>
      match read_primitive_type p r with
      | .error e => .error e
      | .ok (pv, r2) => .ok (st, .vprim pv, r2)

/-- The `_read_record_fn` dispatch as invoked from inside array-element and
class-member loops.  `MessageEnd`/`MethodCall`/`MethodReturn` have `None`
entries, so invoking them is a `TypeError`; the remaining handlers (nested
arrays, class records, header, library) are outside this embedding
(`modelGap`). -/
def read_record_value (st : ReadState) (rt : RecordType) (bs : List Nat) :
    Except PyErr (ReadState × Val × List Nat) :=
  match rt with
  | .BinaryObjectString => read_string st bs
  | .MemberPrimitiveTyped => read_primitive st bs
  | .MemberReference => read_reference st bs
  | .ObjectNull => read_null st bs
  | .ObjectNullMultiple256 => read_null_multiple_256 st bs
  | .ObjectNullMultiple => read_null_multiple st bs
  | .MessageEnd => .error .typeError
  | .MethodCall => .error .typeError
  | .MethodReturn => .error .typeError
  | _ => .error .modelGap

/-- The element loop of `BinaryReader.read_object_array`
(`while len(data) < length`): each child record is read through the
dispatcher; a `NullReferenceMultiple` run is expanded in place
(`data.extend(nrm)` — a negative count contributes nothing); for EVERY other
value the loop then evaluates `value_type is InstanceReference`, a name
imported only under `typing.TYPE_CHECKING`, so it raises `NameError` at
runtime.  Fuel (one unit per iteration, instantiated with more than the
stream length) models the possibility of non-termination; no theorem
relies on exhausting it. -/
def read_object_array_loop (fuel : Nat) (st : ReadState) (bs : List Nat)
    (data : List Val) (length : Int) : Except PyErr (ReadState × List Val × List Nat) :=
  if (data.length : Int) < length then
    match fuel with
    | 0 => .error .modelGap
    | fuel + 1 =>
      match bs with
      | [] => .error .indexError
      | record_byte :: bs1 =>
        match RecordType.ofByte record_byte with
        | .error e => .error e
        | .ok record_type =>
          match read_record_value st record_type bs1 with
          | .error e => .error e
          | .ok (st2, value, bs2) =>
            match value with
            | .vnrm count =>
              read_object_array_loop fuel st2 bs2
                (data ++ List.replicate count.toNat .vnone) length
            | _ => .error .nameError
  else .ok (st, data, bs)

/-- From `BinaryReader.read_object_array` (`ArraySingleObject`): object id,
length (negative is an error in strict mode, zero in permissive mode), the
element loop, then registration.  The `has_references` flag can never be
set, because the branch that would set it raises `NameError` first. -/
def read_object_array (strict : Bool) (st : ReadState) (bs : List Nat) :
    Except PyErr (ReadState × Val × List Nat) :=
  let state_object_id := int_from_bytes_le_signed (bs.take 4)
  let bs1 := bs.drop 4
  let length0 := int_from_bytes_le_signed (bs1.take 4)
  let bs2 := bs1.drop 4
  match (if length0 < 0 then
          (if strict then Except.error PyErr.valueError else Except.ok (0 : Int))
         else Except.ok length0) with
  | .error e => .error e
  | .ok length =>
    match read_object_array_loop (bs2.length + 1) st bs2 [] length with
    | .error e => .error e
    | .ok (st3, data, bs3) =>
      match register_object st3 (.vobjArray data) state_object_id with
      | .error e => .error e
      | .ok st4 => .ok (st4, .vobjArray data, bs3)

/-- `type(value) is InstanceReference` on stored values. -/
def isRef : Val → Bool
  | .vref _ => true
  | _ => false

/-- The member loop of `BinaryReader.read_class_instance`: for each member
in declared order — a pending null run first (error if the member is
`Primitive`, else one null, decrementing); then an untagged primitive read
for `Primitive` members; otherwise one dispatched record, where a
`NullReferenceMultiple` sets the run counter (appending nothing for the
current member — `len()` of a negative count raises `ValueError`) and any
other value is appended. -/
def read_class_members (st : ReadState) (members : List Member) (bs : List Nat)
    (data : List Val) (null_count : Int) : Except PyErr (ReadState × List Val × List Nat) :=
  match members with
  | [] => .ok (st, data, bs)
  | member :: rest =>
    if 0 < null_count then
      if member.binaryType = .Primitive then .error .valueError
      else read_class_members st rest bs (data ++ [.vnone]) (null_count - 1)
    else if member.binaryType = .Primitive then
      match member.extraInfo with
      | .prim p =>
        match read_primitive_type p bs with
        | .error e => .error e
        | .ok pr => read_class_members st rest pr.2 (data ++ [.vprim pr.1]) null_count
      | _ => .error .typeError
    else
      match bs with
      | [] => .error .indexError
      | record_byte :: bs1 =>
        match RecordType.ofByte record_byte with
        | .error e => .error e
        | .ok record_type =>
          match read_record_value st record_type bs1 with
          | .error e => .error e
          | .ok r =>
            match r.2.1 with
            | .vnrm count =>
              if count < 0 then .error .valueError
              else read_class_members r.1 rest r.2.2 data count
            | _ => read_class_members r.1 rest r.2.2 (data ++ [r.2.1]) null_count

/-- From `BinaryReader.read_class_instance`: run the member loop, build the
instance, register it, and record it as a reference parent when any member
is an `InstanceReference`. -/
def read_class_instance (st : ReadState) (state_obj_id : Int)
    (class_obj : ClassObject) (bs : List Nat) : Except PyErr (ReadState × Val × List Nat) :=
  match read_class_members st class_obj.members bs [] 0 with
  | .error e => .error e
  | .ok (st2, data, bs2) =>
    let class_inst := Val.vclassInst class_obj data
    match register_object st2 class_inst state_obj_id with
    | .error e => .error e
    | .ok st3 =>
      if data.any isRef then
        .ok (⟨st3.objects, st3.referenceParents ++ [class_inst]⟩, class_inst, bs2)
      else .ok (st3, class_inst, bs2)

/-! ## `BinaryReader.build_class` and the class registry (`DataStore.classes`) -/

/-- From `structures.ClassInfo`. -/
structure ClassInfo where
  objectId : Int
  name : String
  members : List String

/-- From `structures.MemberTypeInfo`. -/
structure MemberTypeInfo where
  binaryTypes : List BinaryType
  extraInfo : List ExtraInfo

/-- The data store's class registry, keyed by `(library, class_name)` with
`Library`'s `(name, version)` equality. -/
abbrev ClassRegistry := List ((Library × String) × ClassObject)

/-- `self._data_store.classes.get(key, None)`. -/
def classes_get (cs : ClassRegistry) (lib : Library) (nm : String) : Option ClassObject :=
  (List.find? (fun e => libraryPyEq e.1.1 lib && e.1.2 = nm) cs).map (fun e => e.2)

/-- The member-construction loop of `BinaryReader.build_class`:
`Member(i, names[i], binary_types[i], extra_info[i])` for each `i`. -/
def build_members (i : Int) : List String → List BinaryType → List ExtraInfo →
    Except PyErr (List Member)
  | [], _, _ => .ok []
  | n :: ns, bt :: bts, ei :: eis =>
    match mkMember i n bt ei with
    | .error e => .error e
    | .ok mem =>
      match build_members (i + 1) ns bts eis with
      | .error e => .error e
      | .ok rest => .ok (mem :: rest)
  | _ :: _, _, _ => .error .indexError

/-- From `BinaryReader.build_class`.  The partial branch (`member_info is
None`) dereferences `library.id`, an attribute `Library` never defines (and
`read_library`, which would have set it dynamically, itself crashes
first), so it raises `AttributeError`.  The full branch checks the
name/type-info length match, builds the members, and reconciles against the
registry: first registration inserts; a re-registration keeps the existing
schema when `ClassObject.__eq__` holds and raises `ValueError` otherwise. -/
def build_class (class_info : ClassInfo) (library : Library)
    (member_info : Option MemberTypeInfo) (classes : ClassRegistry) :
    Except PyErr (ClassObject × ClassRegistry) :=
  match member_info with
  | none => .error .attributeError
  | some mi =>
    if class_info.members.length ≠ mi.binaryTypes.length then .error .valueError
    else
      match build_members 0 class_info.members mi.binaryTypes mi.extraInfo with
      | .error e => .error e
      | .ok ms =>
        let class_obj : ClassObject := ⟨class_info.name, ms, false, library⟩
        match classes_get classes library class_info.name with
        | none => .ok (class_obj, classes ++ [((library, class_info.name), class_obj)])
        | some old_class_obj =>
          if classObjectPyEq old_class_obj class_obj then .ok (old_class_obj, classes)
          else .error .valueError

/-! ## `BinaryReader.read_library` -/

/-- The static methods and class attributes `object.Library` actually
defines (besides instance properties); there is no `parse_string`. -/
def library_class_methods : List String :=
  ["parse_specification", "SystemLibrary"]

/-- The methods `object.DataStore` actually defines; there is no
`get_library_id`. -/
def data_store_methods : List String :=
  ["get_global", "libraries", "classes", "metadata"]

/-- From `BinaryReader.read_library` (`BinaryLibrary`): after reading the
stream-local id and the specification string, the source evaluates
`objects.Library.parse_string(str_value)` — but `Library` defines no
attribute `parse_string` (the parser is `parse_specification`), so Python
raises `AttributeError` before anything is registered.  (The next line,
`self._data_store.get_library_id()`, would fail the same way:
`DataStore` defines no such method.) -/
def read_library (_st : ReadState) (bs : List Nat) :
    Except PyErr (ReadState × Val × List Nat) :=
  let bs1 := bs.drop 4
  match read_string_raw bs1 with
  | .error e => .error e
  | .ok (_, _) =>
    if library_class_methods.contains ("parse_string") then .error .modelGap
    else .error .attributeError

/-- C2 counterexample: with stream-local id 1 already bound,
`register_object` rejects a re-registration, but a `BinaryObjectString`
record with the same id 1 (bytes `01 00 00 00 01 'B'`) is read successfully
and silently overwrites the existing binding — no duplicate-object-id error
is raised for strings. -/
theorem c2_duplicate_string_id_counterexample :
    register_object ⟨[(1, Val.vstr ("A"))], []⟩ (Val.vstr ("B")) 1 = .error .valueError
    ∧ dictContains [(1, Val.vstr ("A"))] 1 = true
    ∧ read_string ⟨[(1, Val.vstr ("A"))], []⟩ [1, 0, 0, 0, 1, 66] =
        .ok (⟨[(1, Val.vstr ("B"))], []⟩, .vstr ("B"), []) := by
  exact ⟨rfl, rfl, rfl⟩

/-- C2 amended: `register_object` errors exactly when the stream-local id
is already bound, and binds it otherwise — so every record type that
registers through it never binds an id twice.  `BinaryObjectString` is the
exception: `read_string` writes its instance into the table directly, with
no duplicate check, so its id assignment always succeeds and replaces any
existing binding. -/
theorem c2_duplicate_object_id_amended :
    (∀ (st : ReadState) (v : Val) (oid : Int),
      dictContains st.objects oid = true →
        register_object st v oid = .error .valueError)
    ∧ (∀ (st : ReadState) (v : Val) (oid : Int),
      dictContains st.objects oid = false →
        register_object st v oid = .ok ⟨dictSet st.objects oid v, st.referenceParents⟩)
    ∧ (∀ (st : ReadState) (bs : List Nat) (r : ReadState × Val × List Nat),
      read_string st bs = .ok r →
        r.1.objects = dictSet st.objects (int_from_bytes_le_signed (bs.take 4)) r.2.1) := by
  refine ⟨?_, ?_, ?_⟩
  · intro st v oid h
    unfold register_object
    rw [h]
    rfl
  · intro st v oid h
    unfold register_object
    rw [h]
    rfl
  · intro st bs r h
    unfold read_string at h
    dsimp only at h
    cases hs : read_string_raw (bs.drop 4) with
    | error e => rw [hs] at h; cases h
    | ok p =>
      rw [hs] at h
      cases h
      rfl

/-- Witness for C2's amended theorem at concrete inputs. -/
theorem c2_duplicate_object_id_amended_witness :
    register_object ⟨[(1, Val.vnone)], []⟩ Val.vnone 1 = .error .valueError
    ∧ register_object ⟨[], []⟩ Val.vnone 1 = .ok ⟨dictSet [] 1 Val.vnone, []⟩
    ∧ (read_string ⟨[(1, Val.vstr ("A"))], []⟩ [1, 0, 0, 0, 1, 66] =
          .ok (⟨[(1, Val.vstr ("B"))], []⟩, .vstr ("B"), []) →
        (⟨[(1, Val.vstr ("B"))], []⟩ : ReadState).objects =
          dictSet [(1, Val.vstr ("A"))] (int_from_bytes_le_signed ([1, 0, 0, 0]))
            (Val.vstr ("B"))) := by
  refine ⟨?_, ?_, ?_⟩
  · exact c2_duplicate_object_id_amended.1 ⟨[(1, Val.vnone)], []⟩ Val.vnone 1 rfl
  · exact c2_duplicate_object_id_amended.2.1 ⟨[], []⟩ Val.vnone 1 rfl
  · intro h
    exact c2_duplicate_object_id_amended.2.2 ⟨[(1, Val.vstr ("A"))], []⟩
      [1, 0, 0, 0, 1, 66] (⟨[(1, Val.vstr ("B"))], []⟩, .vstr ("B"), []) h

/-- C4: reading an `ArraySingleObject`.  Null-multiple runs expand in place
exactly as claimed, but EVERY other child record crashes the loop with
`NameError`: the checks `value_type is InstanceReference` and
`value_type is ClassInstance` in `read_object_array` use names imported
only under `typing.TYPE_CHECKING`, which are unbound at runtime (the
sibling `read_binary_array` correctly writes `objects.InstanceReference`).
Shown: a length-1 array holding a single `ObjectNull` fails; a length-5
array of runs 2 (`ObjectNullMultiple256`) and 3 (`ObjectNullMultiple`)
parses to five consecutive nulls and is registered; and the general
one-step laws of the element loop. -/
theorem c4_object_array_name_error :
    read_object_array true ⟨[], []⟩ [5, 0, 0, 0, 1, 0, 0, 0, 10] = .error .nameError
    ∧ read_object_array true ⟨[], []⟩ [5, 0, 0, 0, 5, 0, 0, 0, 13, 2, 14, 3, 0, 0, 0] =
        .ok (⟨[(5, Val.vobjArray [.vnone, .vnone, .vnone, .vnone, .vnone])], []⟩,
          .vobjArray [.vnone, .vnone, .vnone, .vnone, .vnone], [])
    ∧ (∀ (fuel : Nat) (st : ReadState) (bs : List Nat) (data : List Val)
        (length : Int) (c : Nat),
      (data.length : Int) < length →
        read_object_array_loop (fuel + 1) st (13 :: c :: bs) data length =
          read_object_array_loop fuel st bs (data ++ List.replicate c .vnone) length)
    ∧ (∀ (fuel : Nat) (st : ReadState) (bs : List Nat) (data : List Val)
        (length : Int),
      (data.length : Int) < length →
        read_object_array_loop (fuel + 1) st (10 :: bs) data length = .error .nameError) := by
  refine ⟨rfl, rfl, ?_, ?_⟩
  · intro fuel st bs data length c h
    conv_lhs => rw [read_object_array_loop]
    rw [if_pos h]
    dsimp only [RecordType.ofByte, read_record_value, read_null_multiple_256]
    rw [Int.toNat_natCast]
  · intro fuel st bs data length h
    conv_lhs => rw [read_object_array_loop]
    rw [if_pos h]
    rfl

/-- Witness for C4's loop laws at a concrete state. -/
theorem c4_object_array_name_error_witness :
    read_object_array_loop 2 ⟨[], []⟩ [13, 2] [] 2 =
        read_object_array_loop 1 ⟨[], []⟩ [] (List.replicate 2 .vnone) 2
    ∧ read_object_array_loop 1 ⟨[], []⟩ [10] [] 1 = .error .nameError := by
  constructor
  · have h := c4_object_array_name_error.2.2.1 1 ⟨[], []⟩ [] [] 2 2 (by decide)
    simpa using h
  · exact c4_object_array_name_error.2.2.2 0 ⟨[], []⟩ [] [] 1 (by decide)

/-- C5: reading a `BinaryLibrary` record raises `AttributeError` for every
input that parses its id and specification string: the handler calls
`Library.parse_string` (the class only defines `parse_specification`) and
would next call `DataStore.get_library_id` (which `DataStore` does not
define either).  Evaluated at the record `0C`-payload
`01 00 00 00 06 "System"`. -/
theorem c5_read_library_attribute_error :
    read_library ⟨[], []⟩ [1, 0, 0, 0, 6, 83, 121, 115, 116, 101, 109] =
        .error .attributeError
    ∧ library_class_methods.contains ("parse_string") = false
    ∧ data_store_methods.contains ("get_library_id") = false
    ∧ (∀ (st : ReadState) (bs : List Nat) (s : String) (rest : List Nat),
        read_string_raw (bs.drop 4) = .ok (s, rest) →
          read_library st bs = .error .attributeError) := by
  refine ⟨rfl, by decide, by decide, ?_⟩
  · intro st bs s rest h
    unfold read_library
    dsimp only
    rw [h]
    rfl

/-- Witness for C5's universal part at the concrete record bytes. -/
theorem c5_read_library_attribute_error_witness :
    read_library ⟨[(9, Val.vnone)], []⟩ [2, 0, 0, 0, 1, 97] = .error .attributeError := by
  exact c5_read_library_attribute_error.2.2.2 ⟨[(9, Val.vnone)], []⟩ [2, 0, 0, 0, 1, 97]
    ("a") [] rfl

/-- One-step unfolding of the member loop at a cons cell (stated explicitly
because the equation generator cannot produce it for this definition). -/
theorem read_class_members_cons_eq (st : ReadState) (member : Member) (rest : List Member)
    (bs : List Nat) (data : List Val) (null_count : Int) :
    read_class_members st (member :: rest) bs data null_count =
      (if 0 < null_count then
        if member.binaryType = .Primitive then .error .valueError
        else read_class_members st rest bs (data ++ [.vnone]) (null_count - 1)
      else if member.binaryType = .Primitive then
        match member.extraInfo with
        | .prim p =>
          match read_primitive_type p bs with
          | .error e => .error e
          | .ok pr => read_class_members st rest pr.2 (data ++ [.vprim pr.1]) null_count
        | _ => .error .typeError
      else
        match bs with
        | [] => .error .indexError
        | record_byte :: bs1 =>
          match RecordType.ofByte record_byte with
          | .error e => .error e
          | .ok record_type =>
            match read_record_value st record_type bs1 with
            | .error e => .error e
            | .ok r =>
              match r.2.1 with
              | .vnrm count =>
                if count < 0 then .error .valueError
                else read_class_members r.1 rest r.2.2 data count
              | _ => read_class_members r.1 rest r.2.2 (data ++ [r.2.1]) null_count) := rfl

/-- C10: in the class-record instance body, a pending null-multiple run with
remaining count `> 0` meeting a member declared `BinaryType.Primitive`
raises `ValueError` ("Encountered Null reference for primitive value")
instead of filling the slot; a non-primitive member under a pending run
consumes one null and decrements the counter. -/
theorem c10_null_run_primitive_member :
    (∀ (st : ReadState) (member : Member) (rest : List Member) (bs : List Nat)
        (data : List Val) (null_count : Int),
      0 < null_count → member.binaryType = .Primitive →
        read_class_members st (member :: rest) bs data null_count = .error .valueError)
    ∧ (∀ (st : ReadState) (member : Member) (rest : List Member) (bs : List Nat)
        (data : List Val) (null_count : Int),
      0 < null_count → member.binaryType ≠ .Primitive →
        read_class_members st (member :: rest) bs data null_count =
          read_class_members st rest bs (data ++ [.vnone]) (null_count - 1)) := by
  constructor
  · intro st member rest bs data null_count h1 h2
    rw [read_class_members_cons_eq, if_pos h1, if_pos h2]
  · intro st member rest bs data null_count h1 h2
    rw [read_class_members_cons_eq, if_pos h1, if_neg h2]

/-- Witness for C10 at a concrete member list: a pending run of 1 meeting an
`Int32` primitive member errors, while the same run meeting a string member
emits a null. -/
theorem c10_null_run_primitive_member_witness :
    read_class_members ⟨[], []⟩ [⟨0, "m", .Primitive, .prim .Int32⟩] [] [] 1 =
        .error .valueError
    ∧ read_class_members ⟨[], []⟩ [⟨0, "m", .String, .noInfo⟩] [] [] 1 =
        read_class_members ⟨[], []⟩ [] [] ([] ++ [.vnone]) 0 := by
  constructor
  · exact c10_null_run_primitive_member.1 ⟨[], []⟩ ⟨0, "m", .Primitive, .prim .Int32⟩
      [] [] [] 1 (by decide) rfl
  · exact c10_null_run_primitive_member.2 ⟨[], []⟩ ⟨0, "m", .String, .noInfo⟩
      [] [] [] 1 (by decide) (by decide)

/-- Modelled from the spec (claim C6's wording "same ordered member list
with per-member name, binary_type, and extra_info"): extra-info equality by
CONTENT, comparing `ClassTypeInfo` by `(class_name, library_id)` instead of
object identity. -/
def extraInfoSpecEq : ExtraInfo → ExtraInfo → Bool
  | .prim a, .prim b => a = b
  | .str a, .str b => a = b
  | .classInfo a, .classInfo b => a.className = b.className ∧ a.libraryId = b.libraryId
  | .noInfo, .noInfo => true
  | _, _ => false

/-- Modelled from the spec: schema equality as the claim states it — same
library, same name, same ordered member list with per-member name,
binary type, and (content-compared) extra info. -/
def specSchemaEq (a b : ClassObject) : Bool :=
  libraryPyEq a.library b.library && a.name = b.name
    && a.members.length = b.members.length
    && (List.zip a.members b.members).all fun p =>
        p.1.name = p.2.name && p.1.binaryType = p.2.binaryType
          && extraInfoSpecEq p.1.extraInfo p.2.extraInfo

/-- C6 counterexample: two full class records for the same
`(library, name)` key whose schemas are equal in the claim's sense — same
library, name, member names, binary types, and `ClassTypeInfo` content —
are nevertheless rejected with the schema-conflict `ValueError`, because
`ClassTypeInfo` defines no `__eq__` and the two records' extra-info objects
are distinct allocations (distinct `pyId`); the claim would require the
existing schema to be kept. -/
theorem c6_schema_identity_counterexample :
    build_class ⟨1, "C", ["m"]⟩ ⟨"L", "", false⟩
        (some ⟨[.Class], [.classInfo ⟨"D", 2, 0⟩]⟩) [] =
      .ok (⟨"C", [⟨0, "m", .Class, .classInfo ⟨"D", 2, 0⟩⟩], false, ⟨"L", "", false⟩⟩,
        [((⟨"L", "", false⟩, "C"),
          ⟨"C", [⟨0, "m", .Class, .classInfo ⟨"D", 2, 0⟩⟩], false, ⟨"L", "", false⟩⟩)])
    ∧ specSchemaEq
        ⟨"C", [⟨0, "m", .Class, .classInfo ⟨"D", 2, 0⟩⟩], false, ⟨"L", "", false⟩⟩
        ⟨"C", [⟨0, "m", .Class, .classInfo ⟨"D", 2, 1⟩⟩], false, ⟨"L", "", false⟩⟩ = true
    ∧ build_class ⟨2, "C", ["m"]⟩ ⟨"L", "", false⟩
        (some ⟨[.Class], [.classInfo ⟨"D", 2, 1⟩]⟩)
        [((⟨"L", "", false⟩, "C"),
          ⟨"C", [⟨0, "m", .Class, .classInfo ⟨"D", 2, 0⟩⟩], false, ⟨"L", "", false⟩⟩)] =
      .error .valueError := by
  exact ⟨by decide, by decide, by decide⟩

/-- C6 amended: when a full class record is read for a key that already
holds a schema, the reader keeps the existing schema iff the two are equal
under the code's `ClassObject.__eq__` — same library `(name, version)`,
same class name, and per-member equal `(index, name, binary_type,
extra_info)` where extra info compares by Python `==`, which for
`Class`-typed members is object identity — and rejects the stream with
`ValueError` otherwise; a first registration inserts the schema.  Thus a
key never holds two different schemas, but a re-read full record with a
`Class`-typed member is rejected even when structurally identical. -/
theorem c6_schema_reconciliation_amended :
    (∀ (classes : ClassRegistry) (lib : Library) (ci : ClassInfo)
        (mi : MemberTypeInfo) (ms : List Member) (old : ClassObject),
      ci.members.length = mi.binaryTypes.length →
      build_members 0 ci.members mi.binaryTypes mi.extraInfo = .ok ms →
      classes_get classes lib ci.name = some old →
      build_class ci lib (some mi) classes =
        (if classObjectPyEq old ⟨ci.name, ms, false, lib⟩ then .ok (old, classes)
         else .error .valueError))
    ∧ (∀ (classes : ClassRegistry) (lib : Library) (ci : ClassInfo)
        (mi : MemberTypeInfo) (ms : List Member),
      ci.members.length = mi.binaryTypes.length →
      build_members 0 ci.members mi.binaryTypes mi.extraInfo = .ok ms →
      classes_get classes lib ci.name = none →
      build_class ci lib (some mi) classes =
        .ok (⟨ci.name, ms, false, lib⟩,
          classes ++ [((lib, ci.name), ⟨ci.name, ms, false, lib⟩)]))
    ∧ (∀ (a b : ClassTypeInfo) (i : Int) (nm : String),
      memberPyEq ⟨i, nm, .Class, .classInfo a⟩ ⟨i, nm, .Class, .classInfo b⟩ = true
        ↔ a.pyId = b.pyId) := by
  refine ⟨?_, ?_, ?_⟩
  · intro classes lib ci mi ms old hlen hbm hget
    unfold build_class
    dsimp only
    rw [if_neg (show ¬(ci.members.length ≠ mi.binaryTypes.length) from by omega), hbm, hget]
  · intro classes lib ci mi ms hlen hbm hget
    unfold build_class
    dsimp only
    rw [if_neg (show ¬(ci.members.length ≠ mi.binaryTypes.length) from by omega), hbm, hget]
  · intro a b i nm
    simp [memberPyEq, extraInfoPyEq]

/-- Witness for C6's amended theorem at the counterexample's inputs. -/
theorem c6_schema_reconciliation_amended_witness :
    build_class ⟨2, "C", ["m"]⟩ ⟨"L", "", false⟩
        (some ⟨[.Class], [.classInfo ⟨"D", 2, 1⟩]⟩)
        [((⟨"L", "", false⟩, "C"),
          ⟨"C", [⟨0, "m", .Class, .classInfo ⟨"D", 2, 0⟩⟩], false, ⟨"L", "", false⟩⟩)] =
      (if classObjectPyEq
          ⟨"C", [⟨0, "m", .Class, .classInfo ⟨"D", 2, 0⟩⟩], false, ⟨"L", "", false⟩⟩
          ⟨"C", [⟨0, "m", .Class, .classInfo ⟨"D", 2, 1⟩⟩], false, ⟨"L", "", false⟩⟩
        then .ok (⟨"C", [⟨0, "m", .Class, .classInfo ⟨"D", 2, 0⟩⟩], false, ⟨"L", "", false⟩⟩,
          [((⟨"L", "", false⟩, "C"),
            ⟨"C", [⟨0, "m", .Class, .classInfo ⟨"D", 2, 0⟩⟩], false, ⟨"L", "", false⟩⟩)])
        else .error .valueError)
    ∧ (memberPyEq ⟨0, "m", .Class, .classInfo ⟨"D", 2, 0⟩⟩
          ⟨0, "m", .Class, .classInfo ⟨"D", 2, 1⟩⟩ = true ↔ (0 : Nat) = 1) := by
  constructor
  · exact c6_schema_reconciliation_amended.1
      [((⟨"L", "", false⟩, "C"),
        ⟨"C", [⟨0, "m", .Class, .classInfo ⟨"D", 2, 0⟩⟩], false, ⟨"L", "", false⟩⟩)]
      ⟨"L", "", false⟩ ⟨2, "C", ["m"]⟩ ⟨[.Class], [.classInfo ⟨"D", 2, 1⟩]⟩
      [⟨0, "m", .Class, .classInfo ⟨"D", 2, 1⟩⟩]
      ⟨"C", [⟨0, "m", .Class, .classInfo ⟨"D", 2, 0⟩⟩], false, ⟨"L", "", false⟩⟩
      (by decide) (by decide) (by decide)
  · exact c6_schema_reconciliation_amended.2.2 ⟨"D", 2, 0⟩ ⟨"D", 2, 1⟩ 0 ("m")

end DotNetNrbf
